import Mathlib

/-!
# Roll controller (libraries/APM_Control/AP_RollController.cpp)

A shallow embedding of the fixed-wing roll controller: the rate loop
`_get_rate_out`, the two angle-loop entry points, the rate clamp of
`_get_servo_out`, `reset_I` and the autotune start/restore pair. The
transmitter tuning declarations of libraries/AP_Tuning/AP_Tuning.h and
ArduPlane/tuning.h follow the controller.

Conventions of the embedding
* C++ `float` values are rationals (`ℚ`): arithmetic is exact, there is no
  rounding, no infinity and no NaN.
* `AP_Int16` parameters and `int32_t` arguments are integers (`ℤ`), converted
  to `ℚ` where the source converts them to `float`.
* The controller object is passed in and returned explicitly.
* Calls on the collaborating objects (`rate_pid`, `angle_pid`, `autotune`,
  the GCS) are appended, in program order, to the `calls` field of the
  controller, next to their effect on the modelled state.
-/

/-- The diagnostic snapshot of one PID loop (the fields of `AP_PIDInfo` that the
controller reads or writes). -/
structure AP_PIDInfo where
  target : ℚ
  actual : ℚ
  error : ℚ
  P : ℚ
  I : ℚ
  D : ℚ
  FF : ℚ
  deriving DecidableEq

/-- Modelled from the spec: the class `AC_PID` is declared outside the translated
sources. The state is the Gain Set (coefficients, integrator clamp, filter
cut-offs) and the Loop State (loop period, integrator accumulator, filtered
target, error and derivative, last diagnostic snapshot); `memory` stands for
any further filter or slew-limiter memory of an implementation. -/
structure AC_PID where
  _kp : ℚ
  _ki : ℚ
  _kd : ℚ
  _kff : ℚ
  _kimax : ℚ
  _filt_T_hz : ℚ
  _filt_E_hz : ℚ
  _filt_D_hz : ℚ
  _dt : ℚ
  _integrator : ℚ
  _target : ℚ
  _error : ℚ
  _derivative : ℚ
  _pid_info : AP_PIDInfo
  memory : List ℚ
  deriving DecidableEq

namespace AC_PID

/-- Modelled from the spec: `get_i()` reads the current integrator accumulator. -/
def get_i (p : AC_PID) : ℚ := p._integrator

/-- Modelled from the spec: `set_integrator(i)` stores `i` in the integrator
accumulator ("the integrator is restored to its pre-update value"). -/
def set_integrator (p : AC_PID) (i : ℚ) : AC_PID := { p with _integrator := i }

/-- Modelled from the spec: `reset_I()` zeroes the integrator accumulator. -/
def reset_I (p : AC_PID) : AC_PID := { p with _integrator := 0 }

/-- Modelled from the spec: `set_dt(dt)` stores the loop period read from the
scheduler. -/
def set_dt (p : AC_PID) (dt : ℚ) : AC_PID := { p with _dt := dt }

/-- Modelled from the spec: `get_pid_info()` reads the last diagnostic
snapshot. -/
def get_pid_info (p : AC_PID) : AP_PIDInfo := p._pid_info

/-- Modelled from the spec: `kI()` reads the integral gain. -/
def kI (p : AC_PID) : ℚ := p._ki

/-- Modelled from the spec: `kI(v)` sets the integral gain. -/
def set_kI (p : AC_PID) (v : ℚ) : AC_PID := { p with _ki := v }

/-- Modelled from the spec: `kD()` reads the derivative gain. -/
def kD (p : AC_PID) : ℚ := p._kd

/-- Modelled from the spec: `kD().set_and_save_ifchanged(v)` sets the derivative
gain (the write to persistent storage is recorded by the caller). -/
def set_kD (p : AC_PID) (v : ℚ) : AC_PID := { p with _kd := v }

/-- Modelled from the spec: `filt_T_hz()` reads the target filter cut-off. -/
def filt_T_hz (p : AC_PID) : ℚ := p._filt_T_hz

/-- Modelled from the spec: `filt_T_hz(v)` sets the target filter cut-off. -/
def set_filt_T_hz (p : AC_PID) (v : ℚ) : AC_PID := { p with _filt_T_hz := v }

end AC_PID

/-- Modelled from the spec: the Autotune Coordinator `AP_AutoTune` is declared
outside the translated sources; the controller reads only its public flag
`running`. -/
structure AP_AutoTune where
  running : Bool
  deriving DecidableEq

namespace AP_AutoTune

/-- Modelled from the spec: a freshly constructed coordinator is not running. -/
def new : AP_AutoTune := { running := false }

/-- Modelled from the spec: `start()` lifecycle call. -/
def start (a : AP_AutoTune) : AP_AutoTune := { a with running := true }

/-- Modelled from the spec: `stop()` lifecycle call. -/
def stop (a : AP_AutoTune) : AP_AutoTune := { a with running := false }

end AP_AutoTune

/-- A call made by the controller on one of its collaborators. -/
inductive Call where
  | rate_set_dt (dt : ℚ)
  | rate_update_all (target measurement : ℚ) (limit : Bool)
  | rate_set_integrator (i : ℚ)
  | rate_reset_I
  | angle_set_dt (dt : ℚ)
  | angle_relax_integrator (integrator time_constant : ℚ)
  | angle_update_all (target measurement : ℚ) (limit : Bool)
  | angle_update_error (error : ℚ) (limit : Bool)
  | angle_reset_I
  | angle_kI (v : ℚ)
  | angle_kD_set_and_save_ifchanged (v : ℚ)
  | angle_filt_T_hz (v : ℚ)
  | autotune_new (allocated : Bool)
  | autotune_start
  | autotune_stop
  | autotune_update (pinfo : AP_PIDInfo) (scaler angle_err_deg : ℚ)
  | gcs_send_text_failed_roll_allocation
  deriving DecidableEq

/-- The parts of the build that the controller calls and that are outside the
translated sources: the unit conversions of AP_Math, the update algorithms of
`AC_PID` (filters, slew limiter, integrator update) and the `tau()` accessor.
Every theorem below holds for every choice of them. -/
structure Env where
  radians : ℚ → ℚ
  degrees : ℚ → ℚ
  update_all : AC_PID → ℚ → ℚ → Bool → AC_PID
  update_error : AC_PID → ℚ → Bool → AC_PID
  relax_integrator : AC_PID → ℚ → ℚ → AC_PID
  get_ff : AC_PID → ℚ
  tau : AC_PID → ℚ

/-- What the estimator holds when the controller reads it: `airspeed_estimate`
is `none` when the estimator has no airspeed estimate. -/
structure AP_AHRS where
  EAS2TAS : ℚ
  gyro_x : ℚ
  airspeed_estimate : Option ℚ
  roll_sensor : ℤ
  deriving DecidableEq

/-- The surroundings read during one control tick: the scheduler's loop period
and the estimator. -/
structure Vehicle where
  loop_period_s : ℚ
  ahrs : AP_AHRS
  deriving DecidableEq

/-- The sensor snapshot `GSO_AHRS_Data`. -/
structure GSO_AHRS_Data where
  aspeed : ℚ
  eas2tas : ℚ
  rate_x : ℚ
  roll_sensor : ℤ
  deriving DecidableEq

/-- The controller object. `airspeed_min` is `aparm.airspeed_min`, `rmax_pos`
and `tau` are `gains.rmax_pos` and `gains.tau`; `autotune` is the nullable
pointer; `calls` is the record of collaborator calls, oldest first. -/
structure AP_RollController where
  airspeed_min : ℤ
  rmax_pos : ℤ
  tau : ℚ
  rate_pid : AC_PID
  angle_pid : AC_PID
  _pid_info : AP_PIDInfo
  _angle_pid_info : AP_PIDInfo
  _last_out : ℚ
  angle_err_deg : ℚ
  autotune : Option AP_AutoTune
  failed_autotune_alloc : Bool
  angle_i_backup : ℚ
  angle_fltt_backup : ℚ
  calls : List Call
  deriving DecidableEq

/-- Modelled from the spec: `constrain_float` of AP_Math is outside the translated
sources; the output is "clamped to ±4500", the value itself inside the
bounds. -/
def constrain_float (amt low high : ℚ) : ℚ :=
  if amt < low then low else if amt > high then high else amt

namespace AP_RollController

/-- Append one collaborator call to the record. -/
def record (s : AP_RollController) (c : Call) : AP_RollController :=
  { s with calls := s.calls ++ [c] }

/-- The test `autotune != nullptr && autotune->running`. -/
def autotune_running (s : AP_RollController) : Bool :=
  match s.autotune with
  | some a => a.running
  | none => false

/-- Method `AP_RollController::_get_rate_out`: returns the deflection and the
controller after the call. -/
def _get_rate_out (env : Env) (v : Vehicle) (s : AP_RollController)
    (desired_rate scaler : ℚ) (disable_integrator ground_mode : Bool)
    (aspeed eas2tas rate_x : ℚ) : ℚ × AP_RollController :=
  let dt : ℚ := v.loop_period_s
  let limit_I : Bool := decide (|s._last_out| ≥ 45)
  let old_I : ℚ := s.rate_pid.get_i
  let s : AP_RollController := ({ s with rate_pid := s.rate_pid.set_dt dt }).record (Call.rate_set_dt dt)
  let underspeed : Bool := decide (aspeed ≤ (s.airspeed_min : ℚ))
  let limit_I : Bool := if underspeed then true else limit_I
  let target : ℚ := env.radians desired_rate * scaler * scaler
  let measurement : ℚ := rate_x * scaler * scaler
  let s : AP_RollController := ({ s with rate_pid := env.update_all s.rate_pid target measurement limit_I }).record
    (Call.rate_update_all target measurement limit_I)
  let s : AP_RollController := if underspeed then
      ({ s with rate_pid := s.rate_pid.set_integrator old_I }).record (Call.rate_set_integrator old_I)
    else s
  let ff : ℚ := env.degrees (env.get_ff s.rate_pid / (scaler * eas2tas))
  let s : AP_RollController := if disable_integrator then
      ({ s with rate_pid := s.rate_pid.reset_I }).record Call.rate_reset_I
    else s
  let pinfo : AP_PIDInfo := s.rate_pid.get_pid_info
  let deg_scale : ℚ := env.degrees 1
  let pinfo : AP_PIDInfo := { pinfo with FF := ff }
  let pinfo : AP_PIDInfo := { pinfo with P := pinfo.P * deg_scale }
  let pinfo : AP_PIDInfo := { pinfo with I := pinfo.I * deg_scale }
  let pinfo : AP_PIDInfo := { pinfo with D := pinfo.D * deg_scale }
  let pinfo : AP_PIDInfo := { pinfo with target := desired_rate }
  let pinfo : AP_PIDInfo := { pinfo with actual := env.degrees rate_x }
  let s : AP_RollController := { s with _pid_info := pinfo }
  let out : ℚ := pinfo.FF + pinfo.P + pinfo.I + pinfo.D
  let out : ℚ := if ground_mode then out - (pinfo.D + (1 / 2) * pinfo.P) else out
  let s : AP_RollController := { s with _last_out := out }
  let s : AP_RollController := if s.autotune_running && decide (aspeed > (s.airspeed_min : ℚ)) then
      s.record (Call.autotune_update pinfo scaler s.angle_err_deg)
    else s
  (constrain_float (out * 100) (-4500) 4500, s)

/-- Method `AP_RollController::_get_gso_ahrs_data`. -/
def _get_gso_ahrs_data (v : Vehicle) : GSO_AHRS_Data :=
  let eas2tas : ℚ := v.ahrs.EAS2TAS
  let rate_x : ℚ := v.ahrs.gyro_x
  let have_aspeed : Bool := v.ahrs.airspeed_estimate.isSome
  let aspeed : ℚ := v.ahrs.airspeed_estimate.getD 0
  let roll_sensor : ℤ := v.ahrs.roll_sensor
  let aspeed : ℚ := if !have_aspeed then 0 else aspeed
  { aspeed := aspeed, eas2tas := eas2tas, rate_x := rate_x, roll_sensor := roll_sensor }

/-- Method `AP_RollController::get_rate_out`. -/
def get_rate_out (env : Env) (v : Vehicle) (s : AP_RollController)
    (desired_rate scaler : ℚ) : ℚ × AP_RollController :=
  let ahrs_data : GSO_AHRS_Data := _get_gso_ahrs_data v
  _get_rate_out env v s desired_rate scaler false false
    ahrs_data.aspeed ahrs_data.eas2tas ahrs_data.rate_x

/-- Method `AP_RollController::_get_servo_out`. -/
def _get_servo_out (env : Env) (v : Vehicle) (s : AP_RollController)
    (desired_rate scaler : ℚ) (disable_integrator ground_mode : Bool)
    (ahrs_data : GSO_AHRS_Data) : ℚ × AP_RollController :=
  let desired_rate :=
    if s.rmax_pos ≠ 0 ∧ desired_rate < ((-s.rmax_pos : ℤ) : ℚ) then
      ((-s.rmax_pos : ℤ) : ℚ)
    else if s.rmax_pos ≠ 0 ∧ desired_rate > (s.rmax_pos : ℚ) then
      (s.rmax_pos : ℚ)
    else desired_rate
  _get_rate_out env v s desired_rate scaler disable_integrator ground_mode
    ahrs_data.aspeed ahrs_data.eas2tas ahrs_data.rate_x

/-- Method `AP_RollController::get_servo_out_using_angle_target`. -/
def get_servo_out_using_angle_target (env : Env) (v : Vehicle) (s : AP_RollController)
    (target_angle : ℤ) (scaler : ℚ) (disable_integrator ground_mode : Bool) :
    ℚ × AP_RollController :=
  let dt : ℚ := v.loop_period_s
  let s : AP_RollController := ({ s with angle_pid := s.angle_pid.set_dt dt }).record (Call.angle_set_dt dt)
  let ahrs_data : GSO_AHRS_Data := _get_gso_ahrs_data v
  let target_angle_deg : ℚ := (target_angle : ℚ) * (1 / 100)
  let measured_angle_deg : ℚ := (ahrs_data.roll_sensor : ℚ) * (1 / 100)
  let s : AP_RollController := { s with angle_err_deg := target_angle_deg - measured_angle_deg }
  let s : AP_RollController := if s.angle_err_deg > 2 then
      ({ s with angle_pid := env.relax_integrator s.angle_pid 0 (1 / 10) }).record
        (Call.angle_relax_integrator 0 (1 / 10))
    else s
  let updated : AC_PID := env.update_all s.angle_pid target_angle_deg measured_angle_deg false
  let s : AP_RollController := ({ s with angle_pid := updated }).record
    (Call.angle_update_all target_angle_deg measured_angle_deg false)
  let s : AP_RollController := if disable_integrator then
      ({ s with angle_pid := s.angle_pid.reset_I }).record Call.angle_reset_I
    else s
  let s : AP_RollController := { s with _angle_pid_info := s.angle_pid.get_pid_info }
  let pinfo : AP_PIDInfo := s._angle_pid_info
  let desired_rate : ℚ := pinfo.P + pinfo.I + pinfo.D
  _get_servo_out env v s desired_rate scaler disable_integrator ground_mode ahrs_data

/-- Method `AP_RollController::get_servo_out_using_angle_error`. -/
def get_servo_out_using_angle_error (env : Env) (v : Vehicle) (s : AP_RollController)
    (angle_err target_angle : ℤ) (scaler : ℚ) (disable_integrator ground_mode : Bool) :
    ℚ × AP_RollController :=
  let dt : ℚ := v.loop_period_s
  let s : AP_RollController := ({ s with angle_pid := s.angle_pid.set_dt dt }).record (Call.angle_set_dt dt)
  let s : AP_RollController := { s with angle_err_deg := (angle_err : ℚ) * (1 / 100) }
  let s : AP_RollController := if s.angle_err_deg > 2 then
      ({ s with angle_pid := env.relax_integrator s.angle_pid 0 (1 / 10) }).record
        (Call.angle_relax_integrator 0 (1 / 10))
    else s
  let s : AP_RollController := ({ s with angle_pid := env.update_error s.angle_pid s.angle_err_deg false }).record
    (Call.angle_update_error s.angle_err_deg false)
  let s : AP_RollController := if disable_integrator then
      ({ s with angle_pid := s.angle_pid.reset_I }).record Call.angle_reset_I
    else s
  let s : AP_RollController := { s with _angle_pid_info := s.angle_pid.get_pid_info }
  let ahrs_data : GSO_AHRS_Data := _get_gso_ahrs_data v
  let s : AP_RollController := if target_angle = 0 then
      let s : AP_RollController := { s with _angle_pid_info := { s._angle_pid_info with target := 0 } }
      let s : AP_RollController := { s with _angle_pid_info := { s._angle_pid_info with actual := 0 } }
      s
    else
      let actual_angle : ℚ := (ahrs_data.roll_sensor : ℚ)
      let s : AP_RollController := { s with _angle_pid_info :=
        { s._angle_pid_info with target := (target_angle : ℚ) * (1 / 100) } }
      let s : AP_RollController := { s with _angle_pid_info :=
        { s._angle_pid_info with actual := actual_angle * (1 / 100) } }
      s
  let pinfo : AP_PIDInfo := s._angle_pid_info
  let desired_rate : ℚ := pinfo.P + pinfo.I + pinfo.D
  _get_servo_out env v s desired_rate scaler disable_integrator ground_mode ahrs_data

/-- Method `AP_RollController::reset_I`. -/
def reset_I (s : AP_RollController) : AP_RollController :=
  let s : AP_RollController := { s with _pid_info := { s._pid_info with I := 0 } }
  let s : AP_RollController := ({ s with rate_pid := s.rate_pid.reset_I }).record Call.rate_reset_I
  let s : AP_RollController := { s with _angle_pid_info := { s._angle_pid_info with I := 0 } }
  let s : AP_RollController := ({ s with angle_pid := s.angle_pid.reset_I }).record Call.angle_reset_I
  s

/-- Method `AP_RollController::autotune_start`; `alloc_ok` tells whether
`new AP_AutoTune(...)` returns an object (it is read only when the pointer is
null). -/
def autotune_start (env : Env) (s : AP_RollController) (alloc_ok : Bool) :
    AP_RollController :=
  let s : AP_RollController :=
    if s.autotune = none then
      let s : AP_RollController := { s with angle_i_backup := s.angle_pid.kI }
      let s : AP_RollController := { s with angle_fltt_backup := s.angle_pid.filt_T_hz }
      let s : AP_RollController := { s with tau := env.tau s.angle_pid }
      let s : AP_RollController := ({ s with autotune := if alloc_ok then some AP_AutoTune.new else none }).record
        (Call.autotune_new alloc_ok)
      let s : AP_RollController :=
        if s.autotune = none then
          let s : AP_RollController := if !s.failed_autotune_alloc then
              s.record Call.gcs_send_text_failed_roll_allocation
            else s
          { s with failed_autotune_alloc := true }
        else s
      let s : AP_RollController := ({ s with angle_pid := s.angle_pid.set_kI 0 }).record (Call.angle_kI 0)
      let s : AP_RollController := ({ s with angle_pid := s.angle_pid.set_kD 0 }).record
        (Call.angle_kD_set_and_save_ifchanged 0)
      let s : AP_RollController := ({ s with angle_pid := s.angle_pid.set_filt_T_hz 0 }).record
        (Call.angle_filt_T_hz 0)
      s
    else s
  match s.autotune with
  | some a => ({ s with autotune := some a.start }).record Call.autotune_start
  | none => s

/-- Method `AP_RollController::autotune_restore`. -/
def autotune_restore (s : AP_RollController) : AP_RollController :=
  match s.autotune with
  | some a =>
    let s : AP_RollController := ({ s with autotune := some a.stop }).record Call.autotune_stop
    let s : AP_RollController := ({ s with angle_pid := s.angle_pid.set_kI s.angle_i_backup }).record
      (Call.angle_kI s.angle_i_backup)
    let s : AP_RollController := ({ s with angle_pid := s.angle_pid.set_filt_T_hz s.angle_fltt_backup }).record
      (Call.angle_filt_T_hz s.angle_fltt_backup)
    s
  | none => s

end AP_RollController

/-! ## A concrete build, for running the controller on concrete inputs -/

namespace AC_PID

/-- Modelled from the spec: the integrator update of `AC_PID`, which is outside the
translated sources. "Anti-windup: suppressing integrator growth": with the
limit flag set the accumulator may only move towards zero; the accumulator is
kept inside the integrator clamp. The spec does not say what a zero integral
gain or loop period does; here it clears the accumulator. The snapshot's `I`
is the accumulator after the update. -/
def update_i (p : AC_PID) (limit : Bool) : AC_PID :=
  let p : AC_PID :=
    if p._ki ≠ 0 ∧ 0 < p._dt then
      if !limit || (decide (0 < p._integrator) && decide (p._error < 0))
          || (decide (p._integrator < 0) && decide (0 < p._error)) then
        let p : AC_PID := { p with _integrator := p._integrator + p._error * p._ki * p._dt }
        { p with _integrator :=
            if p._integrator < -p._kimax then -p._kimax
            else if p._integrator > p._kimax then p._kimax else p._integrator }
      else p
    else { p with _integrator := 0 }
  { p with _pid_info := { p._pid_info with I := p._integrator } }

/-- Modelled from the spec: `AC_PID::update_all`, outside the translated sources,
with the target, error and derivative filter cut-offs and the slew clamp at
zero ("a zero filter cutoff or slew clamp disables that feature"): the error
is target minus measurement, the derivative is its change over the loop
period, and the snapshot holds the proportional, integral and derivative
contributions. -/
def update_all_unfiltered (p : AC_PID) (target measurement : ℚ) (limit : Bool) : AC_PID :=
  let error_last : ℚ := p._error
  let p : AC_PID := { p with _target := target }
  let p : AC_PID := { p with _error := p._target - measurement }
  let p : AC_PID :=
    if 0 < p._dt then { p with _derivative := (p._error - error_last) / p._dt } else p
  let p : AC_PID := update_i p limit
  let p : AC_PID := { p with _pid_info := { p._pid_info with target := p._target } }
  let p : AC_PID := { p with _pid_info := { p._pid_info with actual := measurement } }
  let p : AC_PID := { p with _pid_info := { p._pid_info with error := p._error } }
  let p : AC_PID := { p with _pid_info := { p._pid_info with P := p._error * p._kp } }
  let p : AC_PID := { p with _pid_info := { p._pid_info with D := p._derivative * p._kd } }
  p

/-- Modelled from the spec: `AC_PID::update_error`, outside the translated sources,
with the filters and the slew clamp disabled: as `update_all_unfiltered` for a
precomputed error, with a zero target. -/
def update_error_unfiltered (p : AC_PID) (error : ℚ) (limit : Bool) : AC_PID :=
  let error_last : ℚ := p._error
  let p : AC_PID := { p with _target := 0 }
  let p : AC_PID := { p with _error := error }
  let p : AC_PID :=
    if 0 < p._dt then { p with _derivative := (p._error - error_last) / p._dt } else p
  let p : AC_PID := update_i p limit
  let p : AC_PID := { p with _pid_info := { p._pid_info with target := 0 } }
  let p : AC_PID := { p with _pid_info := { p._pid_info with actual := 0 } }
  let p : AC_PID := { p with _pid_info := { p._pid_info with error := p._error } }
  let p : AC_PID := { p with _pid_info := { p._pid_info with P := p._error * p._kp } }
  let p : AC_PID := { p with _pid_info := { p._pid_info with D := p._derivative * p._kd } }
  p

/-- Modelled from the spec: `AC_PID::relax_integrator`, outside the translated
sources: "relax (partially decay) the integrator" towards the given value with
the given time constant. -/
def relax_integrator_plain (p : AC_PID) (integrator time_constant : ℚ) : AC_PID :=
  { p with _integrator :=
      p._integrator + (integrator - p._integrator) * (p._dt / (p._dt + time_constant)) }

/-- Modelled from the spec: `AC_PID::get_ff`, outside the translated sources: the
feed-forward contribution, the feed-forward coefficient times the target. -/
def get_ff_plain (p : AC_PID) : ℚ := p._target * p._kff

/-- A PID object with every gain and all state at zero. -/
def zero : AC_PID :=
  { _kp := 0, _ki := 0, _kd := 0, _kff := 0, _kimax := 0,
    _filt_T_hz := 0, _filt_E_hz := 0, _filt_D_hz := 0,
    _dt := 0, _integrator := 0, _target := 0, _error := 0, _derivative := 0,
    _pid_info := { target := 0, actual := 0, error := 0, P := 0, I := 0, D := 0, FF := 0 },
    memory := [] }

end AC_PID

/-- Modelled from the spec: a concrete build, used where a theorem is evaluated on
concrete inputs. `radians` and `degrees` multiply by the single-precision
values of π/180 and 180/π; the `AC_PID` algorithms are the unfiltered ones
above; `tau()` is not specified and is taken as the reciprocal of the
angle-loop proportional gain. -/
def bench_env : Env :=
  { radians := fun deg => deg * (9370165 / 536870912)
    degrees := fun rad => rad * (15019745 / 262144)
    update_all := AC_PID.update_all_unfiltered
    update_error := AC_PID.update_error_unfiltered
    relax_integrator := AC_PID.relax_integrator_plain
    get_ff := AC_PID.get_ff_plain
    tau := fun p => 1 / p._kp }

/-- A 50 Hz loop, level flight at 20 m/s, no roll rate. -/
def bench_vehicle : Vehicle :=
  { loop_period_s := 1 / 50
    ahrs := { EAS2TAS := 1, gyro_x := 0, airspeed_estimate := some 20, roll_sensor := 0 } }

/-- A controller with rate gains P = 0.2, I = 0.1, FF = 0, integrator clamp 2/3,
angle gains P = 1, I = 0.1, D = 0.01, minimum airspeed 5, no rate limit, no autotune
object, and a rate integrator wound to -1/2. -/
def bench_controller : AP_RollController :=
  { airspeed_min := 5
    rmax_pos := 0
    tau := 1
    rate_pid := { AC_PID.zero with _kp := 1 / 5, _ki := 1 / 10, _kimax := 2 / 3,
                                   _integrator := -1 / 2 }
    angle_pid := { AC_PID.zero with _kp := 1, _ki := 1 / 10, _kd := 1 / 100, _kimax := 2 / 3,
                                    _filt_T_hz := 3 }
    _pid_info := { target := 0, actual := 0, error := 0, P := 0, I := 0, D := 0, FF := 0 }
    _angle_pid_info := { target := 0, actual := 0, error := 0, P := 0, I := 0, D := 0, FF := 0 }
    _last_out := 0
    angle_err_deg := 0
    autotune := none
    failed_autotune_alloc := false
    angle_i_backup := 0
    angle_fltt_backup := 0
    calls := [] }

/-- The bench controller with its rate integrator at +1/4 instead of -1/2. -/
def bench_controller_pos : AP_RollController :=
  { bench_controller with
    rate_pid := { bench_controller.rate_pid with _integrator := 1 / 4 } }

/-- The bench controller with a maximum roll rate of 60 deg/s. -/
def bench_controller_rmax : AP_RollController :=
  { bench_controller with rmax_pos := 60 }

/-- The bench vehicle when the estimator has no airspeed estimate. -/
def bench_vehicle_no_airspeed : Vehicle :=
  { bench_vehicle with ahrs := { bench_vehicle.ahrs with airspeed_estimate := none } }

/-! ## Observations on the call record -/

/-- The integrator-limit flag of a `rate_pid.update_all` call. -/
def Call.rate_limit_flag : Call → Option Bool
  | Call.rate_update_all _ _ limit => some limit
  | _ => none

/-- The value written by a `rate_pid.set_integrator` call. -/
def Call.rate_restored : Call → Option ℚ
  | Call.rate_set_integrator i => some i
  | _ => none

/-- The arguments of an `autotune->update` call. -/
def Call.autotune_args : Call → Option (AP_PIDInfo × ℚ × ℚ)
  | Call.autotune_update pinfo scaler angle_err_deg => some (pinfo, scaler, angle_err_deg)
  | _ => none

/-- What an underspeed tick looks like from outside, for a tick entered with
controller `s` and ended with result `r`: the one `rate_pid.update_all` call of
the tick has its integrator-limit flag set, `rate_pid.set_integrator` is called
once, with the integrator value held before the tick, `autotune->update` is not
called, the integrator ends at that value (at zero when `disable_integrator` is
set), and the returned deflection is in [-4500, 4500]. -/
def UnderspeedTick (s : AP_RollController) (disable_integrator : Bool)
    (r : ℚ × AP_RollController) : Prop :=
  List.filterMap Call.rate_limit_flag r.2.calls
      = List.filterMap Call.rate_limit_flag s.calls ++ [true] ∧
  List.filterMap Call.rate_restored r.2.calls
      = List.filterMap Call.rate_restored s.calls ++ [s.rate_pid.get_i] ∧
  List.filterMap Call.autotune_args r.2.calls = List.filterMap Call.autotune_args s.calls ∧
  r.2.rate_pid.get_i = (if disable_integrator = true then 0 else s.rate_pid.get_i) ∧
  -4500 ≤ r.1 ∧ r.1 ≤ 4500

/-- The arguments of an `angle_pid.relax_integrator` call. -/
def Call.angle_relaxed : Call → Option (ℚ × ℚ)
  | Call.angle_relax_integrator integrator time_constant => some (integrator, time_constant)
  | _ => none

/-- The value written and saved by an `angle_pid.kD().set_and_save_ifchanged` call. -/
def Call.angle_kD_saved : Call → Option ℚ
  | Call.angle_kD_set_and_save_ifchanged v => some v
  | _ => none

/-- What the angle-loop part of a tick looks like from outside, for a tick entered
with controller `s` and ended with result `r`, where `e` is the angle error in
degrees, `update` the PID update call and `run_update` its effect: the error
is stored in `angle_err_deg`; `angle_pid.relax_integrator(0, 0.1)` is called
once if 2 < e and not at all otherwise; when called it comes after `set_dt`
and before the PID update; and the angle PID at the end is the update run on
the relaxed (if 2 < e) or unrelaxed PID, then reset if `disable_integrator` is
set. -/
def AngleLoopTick (env : Env) (v : Vehicle) (s : AP_RollController) (e : ℚ) (update : Call)
    (run_update : AC_PID → AC_PID) (disable_integrator : Bool)
    (r : ℚ × AP_RollController) : Prop :=
  r.2.angle_err_deg = e ∧
  List.filterMap Call.angle_relaxed r.2.calls
      = List.filterMap Call.angle_relaxed s.calls ++ (if 2 < e then [(0, 1 / 10)] else []) ∧
  (∃ tail : List Call,
    r.2.calls = s.calls ++ [Call.angle_set_dt v.loop_period_s]
        ++ (if 2 < e then [Call.angle_relax_integrator 0 (1 / 10)] else [])
        ++ [update] ++ tail ∧
    List.filterMap Call.angle_relaxed tail = []) ∧
  r.2.angle_pid
    = (fun p : AC_PID => if disable_integrator = true then p.reset_I else p)
        (run_update
          (if 2 < e then env.relax_integrator (s.angle_pid.set_dt v.loop_period_s) 0 (1 / 10)
            else s.angle_pid.set_dt v.loop_period_s))

/-- The bench controller with an autotune session started. -/
def bench_controller_tuning : AP_RollController :=
  AP_RollController.autotune_start bench_env bench_controller true

/-- The bench controller after one completed autotune session (start, then
restore), with the angle-loop derivative gain then set to 0.01 again through
the parameter store. The autotune object of the first session still exists. -/
def bench_controller_second_session : AP_RollController :=
  { AP_RollController.autotune_restore bench_controller_tuning with
    angle_pid :=
      (AP_RollController.autotune_restore bench_controller_tuning).angle_pid.set_kD (1 / 100) }

/-! ## Transmitter tuning (libraries/AP_Tuning/AP_Tuning.h, ArduPlane/tuning.h) -/

namespace AP_Tuning

/-- Struct `AP_Tuning::tuning_set`: the set ID and the number of parameters are
`uint8_t` values, `parms` is the array of the set's parameter IDs. -/
structure tuning_set where
  set : Nat
  num_parms : Nat
  parms : List Nat
  deriving DecidableEq

/-- Constant `AP_Tuning::set_base`, the base parameter number for tuning sets. -/
def set_base : Nat := 100

end AP_Tuning

/-- The members of class `AP_Tuning` that take part in the choice of the parameter
being tuned: the table of tuning sets, the flag `mid_point_wait`, the active
set `current_set`, and the current parameter and its index in the set (all
three `uint8_t`). -/
structure AP_Tuning where
  tuning_sets : List AP_Tuning.tuning_set
  mid_point_wait : Bool
  current_parm : Nat
  current_parm_index : Nat
  current_set : Nat
  deriving DecidableEq

namespace AP_Tuning

/-- Modelled from the spec: the lookup of the active tuning set is part of
AP_Tuning.cpp, which is outside the translated sources (AP_Tuning.h only
declares it). A tuning-set ID is offset by `set_base` in `current_set`; "an
unknown set ID leaves the session unchanged", so the lookup may fail. -/
def active_set (t : AP_Tuning) : Option tuning_set :=
  t.tuning_sets.find? (fun ts => ts.set + set_base == t.current_set)

/-- Modelled from the spec: `AP_Tuning::next_parameter` is defined in
AP_Tuning.cpp, which is outside the translated sources (AP_Tuning.h only
declares it). A selector-switch transition "advances `current_parm_index`
forward (wrap to 0) within the active set, marks the new target, and re-enters
`WAIT_CENTER`"; without an active set the session is unchanged. The index is
a `uint8_t`, so the increment is taken modulo 256. -/
def next_parameter (t : AP_Tuning) : AP_Tuning :=
  match t.active_set with
  | none => t
  | some ts =>
    let index : Nat := (t.current_parm_index + 1) % 256
    let index : Nat := if index ≥ ts.num_parms then 0 else index
    { t with current_parm_index := index
             current_parm := ts.parms.getD index 0
             mid_point_wait := true }

/-- A table with one three-parameter tuning set (set 2). -/
def bench_sets : List tuning_set :=
  [{ set := 2, num_parms := 3, parms := [4, 1, 25] }]

/-- A tuning session on set 2 of `bench_sets`, at the first parameter. -/
def bench_session : AP_Tuning :=
  { tuning_sets := bench_sets, mid_point_wait := false, current_parm := 4,
    current_parm_index := 0, current_set := 102 }

end AP_Tuning

namespace AP_Tuning_Plane

/-- Enumeration `AP_Tuning_Plane::tuning_func`, the individual tuning parameters. -/
inductive tuning_func where
  | TUNING_NONE
  | TUNING_RATE_ROLL_PI
  | TUNING_RATE_ROLL_P
  | TUNING_RATE_ROLL_I
  | TUNING_RATE_ROLL_D
  | TUNING_RATE_PITCH_PI
  | TUNING_RATE_PITCH_P
  | TUNING_RATE_PITCH_I
  | TUNING_RATE_PITCH_D
  | TUNING_RATE_YAW_PI
  | TUNING_RATE_YAW_P
  | TUNING_RATE_YAW_I
  | TUNING_RATE_YAW_D
  | TUNING_ANG_ROLL_P
  | TUNING_ANG_PITCH_P
  | TUNING_ANG_YAW_P
  | TUNING_PXY_P
  | TUNING_PZ_P
  | TUNING_VXY_P
  | TUNING_VXY_I
  | TUNING_VZ_P
  | TUNING_AZ_P
  | TUNING_AZ_I
  | TUNING_AZ_D
  | TUNING_RATE_PITCH_FF
  | TUNING_RATE_ROLL_FF
  | TUNING_RATE_YAW_FF
  | TUNING_FIXED_WING_BASE
  | TUNING_RLL_P
  | TUNING_RLL_I
  | TUNING_RLL_D
  | TUNING_RLL_FF
  | TUNING_PIT_P
  | TUNING_PIT_I
  | TUNING_PIT_D
  | TUNING_PIT_FF
  | TUNING_TRIM_THROTTLE
  | TUNING_TRIM_PITCH
  | TUNING_KFF_THRAT2PTCH
  | TUNING_FBWA_PITCH_DOWN
  | TUNING_FBWA_MXPTCHD_THR
  | TUNING_FBWA_PTCHDN_CRV
  | TUNING_FBWA_PITCH_UP
  | TUNING_FBWA_MXPTCHU_THR
  | TUNING_FBWA_PTCHUP_CRV
  | TUNING_RLL2PTCH
  | TUNING_KFF_RDDRMIX
  | TUNING_TECS_THR_FF_DAMP
  | TUNING_TECS_THR_FF_FILT
  | TUNING_AGL_ROLL_P
  | TUNING_AGL_ROLL_I
  | TUNING_AGL_ROLL_D
  | TUNING_AGL_ROLL_FLTT
  | TUNING_AGL_PITCH_P
  | TUNING_AGL_PITCH_I
  | TUNING_AGL_PITCH_D
  | TUNING_AGL_PITCH_FLTT
  | TUNING_MIXING_DIFF
  | TUNING_MIXING_OFFSET
  | TUNING_THR_EXPO_MANUAL
  | TUNING_THR_EXPO_AUTO
  | TUNING_FLAP_RETED_SPD
  | TUNING_FLAP_EXTED_SPD
  | TUNING_FLAP_EXTED_PCT
  | TUNING_MIX_THRAT2ELEV
  | TUNING_MIX_THRAT2ELEVCV
  | TUNING_MIX_FLAP2ELEV
  | TUNING_MIX_FLAP2ELEVCV
  | TUNING_AILERONS_DIFF
  | TUNING_ELEVATOR_DIFF
  | TUNING_Q_TRIM_PITCH
  | TUNING_THR_AUTO_SRATE
  deriving DecidableEq

/-- The numeric value of each enumerator (the parameter ID). -/
def tuning_func.value : tuning_func → Nat
  | .TUNING_NONE => 0
  | .TUNING_RATE_ROLL_PI => 1
  | .TUNING_RATE_ROLL_P => 2
  | .TUNING_RATE_ROLL_I => 3
  | .TUNING_RATE_ROLL_D => 4
  | .TUNING_RATE_PITCH_PI => 5
  | .TUNING_RATE_PITCH_P => 6
  | .TUNING_RATE_PITCH_I => 7
  | .TUNING_RATE_PITCH_D => 8
  | .TUNING_RATE_YAW_PI => 9
  | .TUNING_RATE_YAW_P => 10
  | .TUNING_RATE_YAW_I => 11
  | .TUNING_RATE_YAW_D => 12
  | .TUNING_ANG_ROLL_P => 13
  | .TUNING_ANG_PITCH_P => 14
  | .TUNING_ANG_YAW_P => 15
  | .TUNING_PXY_P => 16
  | .TUNING_PZ_P => 17
  | .TUNING_VXY_P => 18
  | .TUNING_VXY_I => 19
  | .TUNING_VZ_P => 20
  | .TUNING_AZ_P => 21
  | .TUNING_AZ_I => 22
  | .TUNING_AZ_D => 23
  | .TUNING_RATE_PITCH_FF => 24
  | .TUNING_RATE_ROLL_FF => 25
  | .TUNING_RATE_YAW_FF => 26
  | .TUNING_FIXED_WING_BASE => 50
  | .TUNING_RLL_P => 50
  | .TUNING_RLL_I => 51
  | .TUNING_RLL_D => 52
  | .TUNING_RLL_FF => 53
  | .TUNING_PIT_P => 54
  | .TUNING_PIT_I => 55
  | .TUNING_PIT_D => 56
  | .TUNING_PIT_FF => 57
  | .TUNING_TRIM_THROTTLE => 58
  | .TUNING_TRIM_PITCH => 59
  | .TUNING_KFF_THRAT2PTCH => 60
  | .TUNING_FBWA_PITCH_DOWN => 61
  | .TUNING_FBWA_MXPTCHD_THR => 62
  | .TUNING_FBWA_PTCHDN_CRV => 63
  | .TUNING_FBWA_PITCH_UP => 64
  | .TUNING_FBWA_MXPTCHU_THR => 65
  | .TUNING_FBWA_PTCHUP_CRV => 66
  | .TUNING_RLL2PTCH => 67
  | .TUNING_KFF_RDDRMIX => 68
  | .TUNING_TECS_THR_FF_DAMP => 69
  | .TUNING_TECS_THR_FF_FILT => 70
  | .TUNING_AGL_ROLL_P => 71
  | .TUNING_AGL_ROLL_I => 72
  | .TUNING_AGL_ROLL_D => 73
  | .TUNING_AGL_ROLL_FLTT => 74
  | .TUNING_AGL_PITCH_P => 75
  | .TUNING_AGL_PITCH_I => 76
  | .TUNING_AGL_PITCH_D => 77
  | .TUNING_AGL_PITCH_FLTT => 78
  | .TUNING_MIXING_DIFF => 79
  | .TUNING_MIXING_OFFSET => 80
  | .TUNING_THR_EXPO_MANUAL => 81
  | .TUNING_THR_EXPO_AUTO => 82
  | .TUNING_FLAP_RETED_SPD => 83
  | .TUNING_FLAP_EXTED_SPD => 84
  | .TUNING_FLAP_EXTED_PCT => 85
  | .TUNING_MIX_THRAT2ELEV => 86
  | .TUNING_MIX_THRAT2ELEVCV => 87
  | .TUNING_MIX_FLAP2ELEV => 88
  | .TUNING_MIX_FLAP2ELEVCV => 89
  | .TUNING_AILERONS_DIFF => 90
  | .TUNING_ELEVATOR_DIFF => 91
  | .TUNING_Q_TRIM_PITCH => 92
  | .TUNING_THR_AUTO_SRATE => 93

/-- Every enumerator, in the order of the declaration. -/
def tuning_func.all : List tuning_func :=
  [.TUNING_NONE, .TUNING_RATE_ROLL_PI, .TUNING_RATE_ROLL_P, .TUNING_RATE_ROLL_I,
    .TUNING_RATE_ROLL_D, .TUNING_RATE_PITCH_PI, .TUNING_RATE_PITCH_P, .TUNING_RATE_PITCH_I,
    .TUNING_RATE_PITCH_D, .TUNING_RATE_YAW_PI, .TUNING_RATE_YAW_P, .TUNING_RATE_YAW_I,
    .TUNING_RATE_YAW_D, .TUNING_ANG_ROLL_P, .TUNING_ANG_PITCH_P, .TUNING_ANG_YAW_P,
    .TUNING_PXY_P, .TUNING_PZ_P, .TUNING_VXY_P, .TUNING_VXY_I, .TUNING_VZ_P, .TUNING_AZ_P,
    .TUNING_AZ_I, .TUNING_AZ_D, .TUNING_RATE_PITCH_FF, .TUNING_RATE_ROLL_FF,
    .TUNING_RATE_YAW_FF, .TUNING_FIXED_WING_BASE, .TUNING_RLL_P, .TUNING_RLL_I, .TUNING_RLL_D,
    .TUNING_RLL_FF, .TUNING_PIT_P, .TUNING_PIT_I, .TUNING_PIT_D, .TUNING_PIT_FF,
    .TUNING_TRIM_THROTTLE, .TUNING_TRIM_PITCH, .TUNING_KFF_THRAT2PTCH, .TUNING_FBWA_PITCH_DOWN,
    .TUNING_FBWA_MXPTCHD_THR, .TUNING_FBWA_PTCHDN_CRV, .TUNING_FBWA_PITCH_UP,
    .TUNING_FBWA_MXPTCHU_THR, .TUNING_FBWA_PTCHUP_CRV, .TUNING_RLL2PTCH, .TUNING_KFF_RDDRMIX,
    .TUNING_TECS_THR_FF_DAMP, .TUNING_TECS_THR_FF_FILT, .TUNING_AGL_ROLL_P, .TUNING_AGL_ROLL_I,
    .TUNING_AGL_ROLL_D, .TUNING_AGL_ROLL_FLTT, .TUNING_AGL_PITCH_P, .TUNING_AGL_PITCH_I,
    .TUNING_AGL_PITCH_D, .TUNING_AGL_PITCH_FLTT, .TUNING_MIXING_DIFF, .TUNING_MIXING_OFFSET,
    .TUNING_THR_EXPO_MANUAL, .TUNING_THR_EXPO_AUTO, .TUNING_FLAP_RETED_SPD,
    .TUNING_FLAP_EXTED_SPD, .TUNING_FLAP_EXTED_PCT, .TUNING_MIX_THRAT2ELEV,
    .TUNING_MIX_THRAT2ELEVCV, .TUNING_MIX_FLAP2ELEV, .TUNING_MIX_FLAP2ELEVCV,
    .TUNING_AILERONS_DIFF, .TUNING_ELEVATOR_DIFF, .TUNING_Q_TRIM_PITCH, .TUNING_THR_AUTO_SRATE]

/-- The number of bits of the member `have_set` (`uint64_t`), the "mask of what
params have been set". -/
def have_set_bits : Nat := 64

end AP_Tuning_Plane

/-! ## Lemmas on `constrain_float` -/

open AP_RollController

theorem constrain_float_mem (amt low high : ℚ) (h : low ≤ high) :
    low ≤ constrain_float amt low high ∧ constrain_float amt low high ≤ high := by
  unfold constrain_float
  split_ifs with h1 h2
  · exact ⟨le_refl _, h⟩
  · exact ⟨h, le_refl _⟩
  · exact ⟨not_lt.mp h1, not_lt.mp h2⟩

theorem constrain_float_mono (a b low high : ℚ) (h : low ≤ high) (hab : a ≤ b) :
    constrain_float a low high ≤ constrain_float b low high := by
  unfold constrain_float
  split_ifs <;> linarith

theorem constrain_float_of_mem (amt low high : ℚ) (h1 : low ≤ amt) (h2 : amt ≤ high) :
    constrain_float amt low high = amt := by
  unfold constrain_float
  rw [if_neg (not_lt.mpr h1), if_neg (not_lt.mpr h2)]

theorem constrain_float_nonneg (amt low high : ℚ) (hl : low ≤ 0) (hh : 0 ≤ high)
    (h : 0 ≤ amt) : 0 ≤ constrain_float amt low high := by
  unfold constrain_float
  split_ifs <;> linarith

/-! ## What one call of `_get_rate_out` does to the controller -/

theorem _get_rate_out_ret (env : Env) (v : Vehicle) (s : AP_RollController)
    (desired_rate scaler : ℚ) (disable_integrator ground_mode : Bool)
    (aspeed eas2tas rate_x : ℚ) :
    (_get_rate_out env v s desired_rate scaler disable_integrator ground_mode
      aspeed eas2tas rate_x).1 =
    constrain_float ((_get_rate_out env v s desired_rate scaler disable_integrator ground_mode
      aspeed eas2tas rate_x).2._last_out * 100) (-4500) 4500 := by
  simp only [_get_rate_out]
  split_ifs <;> rfl

theorem _get_rate_out_range (env : Env) (v : Vehicle) (s : AP_RollController)
    (desired_rate scaler : ℚ) (disable_integrator ground_mode : Bool)
    (aspeed eas2tas rate_x : ℚ) :
    -4500 ≤ (_get_rate_out env v s desired_rate scaler disable_integrator ground_mode
      aspeed eas2tas rate_x).1 ∧
    (_get_rate_out env v s desired_rate scaler disable_integrator ground_mode
      aspeed eas2tas rate_x).1 ≤ 4500 := by
  rw [_get_rate_out_ret]
  exact constrain_float_mem _ _ _ (by norm_num)

theorem _get_rate_out_rate_pid (env : Env) (v : Vehicle) (s : AP_RollController)
    (desired_rate scaler : ℚ) (disable_integrator ground_mode : Bool)
    (aspeed eas2tas rate_x : ℚ) :
    (_get_rate_out env v s desired_rate scaler disable_integrator ground_mode
      aspeed eas2tas rate_x).2.rate_pid =
    (fun p : AC_PID => if disable_integrator = true then p.reset_I else p)
      ((fun p : AC_PID =>
          if aspeed ≤ (s.airspeed_min : ℚ) then p.set_integrator s.rate_pid.get_i else p)
        (env.update_all (s.rate_pid.set_dt v.loop_period_s)
          (env.radians desired_rate * scaler * scaler) (rate_x * scaler * scaler)
          (decide (45 ≤ |s._last_out| ∨ aspeed ≤ (s.airspeed_min : ℚ))))) := by
  by_cases ha : s.autotune_running = true <;> simp only [autotune_running] at ha <;>
  rcases lt_or_le (s.airspeed_min : ℚ) aspeed with hn | hu
  · have hu : ¬ aspeed ≤ (s.airspeed_min : ℚ) := not_le.mpr hn
    cases disable_integrator <;> cases ground_mode <;>
      simp [_get_rate_out, record, autotune_running, hu, hn, ha]
  · have hn : ¬ (s.airspeed_min : ℚ) < aspeed := not_lt.mpr hu
    cases disable_integrator <;> cases ground_mode <;>
      simp [_get_rate_out, record, autotune_running, hu, hn, ha]
  · have hu : ¬ aspeed ≤ (s.airspeed_min : ℚ) := not_le.mpr hn
    cases disable_integrator <;> cases ground_mode <;>
      simp [_get_rate_out, record, autotune_running, hu, hn, ha]
  · have hn : ¬ (s.airspeed_min : ℚ) < aspeed := not_lt.mpr hu
    cases disable_integrator <;> cases ground_mode <;>
      simp [_get_rate_out, record, autotune_running, hu, hn, ha]

theorem _get_rate_out_get_i (env : Env) (v : Vehicle) (s : AP_RollController)
    (desired_rate scaler : ℚ) (disable_integrator ground_mode : Bool)
    (aspeed eas2tas rate_x : ℚ) :
    (_get_rate_out env v s desired_rate scaler disable_integrator ground_mode
      aspeed eas2tas rate_x).2.rate_pid.get_i =
    if disable_integrator = true then 0
    else if aspeed ≤ (s.airspeed_min : ℚ) then s.rate_pid.get_i
    else (env.update_all (s.rate_pid.set_dt v.loop_period_s)
      (env.radians desired_rate * scaler * scaler) (rate_x * scaler * scaler)
      (decide (45 ≤ |s._last_out|))).get_i := by
  rw [_get_rate_out_rate_pid]
  by_cases hu : aspeed ≤ (s.airspeed_min : ℚ) <;> cases disable_integrator <;>
    simp [hu, AC_PID.get_i, AC_PID.reset_I, AC_PID.set_integrator]

theorem _get_rate_out_calls (env : Env) (v : Vehicle) (s : AP_RollController)
    (desired_rate scaler : ℚ) (disable_integrator ground_mode : Bool)
    (aspeed eas2tas rate_x : ℚ) :
    (_get_rate_out env v s desired_rate scaler disable_integrator ground_mode
      aspeed eas2tas rate_x).2.calls =
    s.calls ++ [Call.rate_set_dt v.loop_period_s,
        Call.rate_update_all (env.radians desired_rate * scaler * scaler)
          (rate_x * scaler * scaler)
          (decide (45 ≤ |s._last_out| ∨ aspeed ≤ (s.airspeed_min : ℚ)))]
      ++ (if aspeed ≤ (s.airspeed_min : ℚ) then [Call.rate_set_integrator s.rate_pid.get_i]
          else [])
      ++ (if disable_integrator = true then [Call.rate_reset_I] else [])
      ++ (if s.autotune_running = true ∧ (s.airspeed_min : ℚ) < aspeed then
            [Call.autotune_update
              (_get_rate_out env v s desired_rate scaler disable_integrator ground_mode
      aspeed eas2tas rate_x).2._pid_info scaler s.angle_err_deg]
          else []) := by
  by_cases ha : s.autotune_running = true <;> simp only [autotune_running] at ha <;>
  rcases lt_or_le (s.airspeed_min : ℚ) aspeed with hn | hu
  · have hu : ¬ aspeed ≤ (s.airspeed_min : ℚ) := not_le.mpr hn
    cases disable_integrator <;> cases ground_mode <;>
      simp [_get_rate_out, record, autotune_running, hu, hn, ha]
  · have hn : ¬ (s.airspeed_min : ℚ) < aspeed := not_lt.mpr hu
    cases disable_integrator <;> cases ground_mode <;>
      simp [_get_rate_out, record, autotune_running, hu, hn, ha]
  · have hu : ¬ aspeed ≤ (s.airspeed_min : ℚ) := not_le.mpr hn
    cases disable_integrator <;> cases ground_mode <;>
      simp [_get_rate_out, record, autotune_running, hu, hn, ha]
  · have hn : ¬ (s.airspeed_min : ℚ) < aspeed := not_lt.mpr hu
    cases disable_integrator <;> cases ground_mode <;>
      simp [_get_rate_out, record, autotune_running, hu, hn, ha]

theorem _get_rate_out_frame (env : Env) (v : Vehicle) (s : AP_RollController)
    (desired_rate scaler : ℚ) (disable_integrator ground_mode : Bool)
    (aspeed eas2tas rate_x : ℚ) :
    (_get_rate_out env v s desired_rate scaler disable_integrator ground_mode
      aspeed eas2tas rate_x).2.angle_pid = s.angle_pid ∧
    (_get_rate_out env v s desired_rate scaler disable_integrator ground_mode
      aspeed eas2tas rate_x).2.autotune = s.autotune ∧
    (_get_rate_out env v s desired_rate scaler disable_integrator ground_mode
      aspeed eas2tas rate_x).2.airspeed_min = s.airspeed_min := by
  by_cases ha : s.autotune_running = true <;> simp only [autotune_running] at ha <;>
  rcases lt_or_le (s.airspeed_min : ℚ) aspeed with hn | hu
  · have hu : ¬ aspeed ≤ (s.airspeed_min : ℚ) := not_le.mpr hn
    cases disable_integrator <;> cases ground_mode <;>
      simp [_get_rate_out, record, autotune_running, hu, hn, ha]
  · have hn : ¬ (s.airspeed_min : ℚ) < aspeed := not_lt.mpr hu
    cases disable_integrator <;> cases ground_mode <;>
      simp [_get_rate_out, record, autotune_running, hu, hn, ha]
  · have hu : ¬ aspeed ≤ (s.airspeed_min : ℚ) := not_le.mpr hn
    cases disable_integrator <;> cases ground_mode <;>
      simp [_get_rate_out, record, autotune_running, hu, hn, ha]
  · have hn : ¬ (s.airspeed_min : ℚ) < aspeed := not_lt.mpr hu
    cases disable_integrator <;> cases ground_mode <;>
      simp [_get_rate_out, record, autotune_running, hu, hn, ha]

theorem _get_rate_out_last_out (env : Env) (v : Vehicle) (s : AP_RollController)
    (desired_rate scaler : ℚ) (disable_integrator ground_mode : Bool)
    (aspeed eas2tas rate_x : ℚ) :
    (_get_rate_out env v s desired_rate scaler disable_integrator ground_mode
      aspeed eas2tas rate_x).2._last_out =
    (fun pinfo : AP_PIDInfo =>
        pinfo.FF + pinfo.P + pinfo.I + pinfo.D
          - (if ground_mode = true then pinfo.D + (1 / 2) * pinfo.P else 0))
      (_get_rate_out env v s desired_rate scaler disable_integrator ground_mode
      aspeed eas2tas rate_x).2._pid_info := by
  by_cases ha : s.autotune_running = true <;> simp only [autotune_running] at ha <;>
  rcases lt_or_le (s.airspeed_min : ℚ) aspeed with hn | hu
  · have hu : ¬ aspeed ≤ (s.airspeed_min : ℚ) := not_le.mpr hn
    cases disable_integrator <;> cases ground_mode <;>
      simp [_get_rate_out, record, autotune_running, hu, hn, ha]
  · have hn : ¬ (s.airspeed_min : ℚ) < aspeed := not_lt.mpr hu
    cases disable_integrator <;> cases ground_mode <;>
      simp [_get_rate_out, record, autotune_running, hu, hn, ha]
  · have hu : ¬ aspeed ≤ (s.airspeed_min : ℚ) := not_le.mpr hn
    cases disable_integrator <;> cases ground_mode <;>
      simp [_get_rate_out, record, autotune_running, hu, hn, ha]
  · have hn : ¬ (s.airspeed_min : ℚ) < aspeed := not_lt.mpr hu
    cases disable_integrator <;> cases ground_mode <;>
      simp [_get_rate_out, record, autotune_running, hu, hn, ha]

theorem _get_rate_out_pid_info_ground (env : Env) (v : Vehicle) (s : AP_RollController)
    (desired_rate scaler : ℚ) (disable_integrator : Bool)
    (aspeed eas2tas rate_x : ℚ) :
    (_get_rate_out env v s desired_rate scaler disable_integrator true
      aspeed eas2tas rate_x).2._pid_info =
    (_get_rate_out env v s desired_rate scaler disable_integrator false
      aspeed eas2tas rate_x).2._pid_info := by
  by_cases ha : s.autotune_running = true <;> simp only [autotune_running] at ha <;>
  rcases lt_or_le (s.airspeed_min : ℚ) aspeed with hn | hu
  · have hu : ¬ aspeed ≤ (s.airspeed_min : ℚ) := not_le.mpr hn
    cases disable_integrator <;>
      simp [_get_rate_out, record, autotune_running, hu, hn, ha]
  · have hn : ¬ (s.airspeed_min : ℚ) < aspeed := not_lt.mpr hu
    cases disable_integrator <;>
      simp [_get_rate_out, record, autotune_running, hu, hn, ha]
  · have hu : ¬ aspeed ≤ (s.airspeed_min : ℚ) := not_le.mpr hn
    cases disable_integrator <;>
      simp [_get_rate_out, record, autotune_running, hu, hn, ha]
  · have hn : ¬ (s.airspeed_min : ℚ) < aspeed := not_lt.mpr hu
    cases disable_integrator <;>
      simp [_get_rate_out, record, autotune_running, hu, hn, ha]
/-! ## The angle-loop entry points end in one call of `_get_rate_out` -/

theorem angle_target_factor (env : Env) (v : Vehicle) (s : AP_RollController)
    (target_angle : ℤ) (scaler : ℚ) (disable_integrator ground_mode : Bool) :
    ∃ (s1 : AP_RollController) (d : ℚ),
      get_servo_out_using_angle_target env v s target_angle scaler disable_integrator ground_mode
        = _get_rate_out env v s1 d scaler disable_integrator ground_mode
            (_get_gso_ahrs_data v).aspeed (_get_gso_ahrs_data v).eas2tas
            (_get_gso_ahrs_data v).rate_x ∧
      s1.rate_pid = s.rate_pid ∧ s1._last_out = s._last_out ∧
      s1.airspeed_min = s.airspeed_min ∧ s1.autotune = s.autotune ∧
      (disable_integrator = true → s1.angle_pid.get_i = 0) ∧
      s1.calls.filterMap Call.rate_limit_flag = s.calls.filterMap Call.rate_limit_flag ∧
      s1.calls.filterMap Call.rate_restored = s.calls.filterMap Call.rate_restored ∧
      s1.calls.filterMap Call.autotune_args = s.calls.filterMap Call.autotune_args := by
  refine ⟨_, _, rfl, ?_⟩
  cases disable_integrator <;> dsimp only [record] <;> split_ifs <;>
    simp_all [AC_PID.get_i, AC_PID.reset_I, Call.rate_limit_flag, Call.rate_restored,
      Call.autotune_args]

theorem angle_error_factor (env : Env) (v : Vehicle) (s : AP_RollController)
    (angle_err target_angle : ℤ) (scaler : ℚ) (disable_integrator ground_mode : Bool) :
    ∃ (s1 : AP_RollController) (d : ℚ),
      get_servo_out_using_angle_error env v s angle_err target_angle scaler
          disable_integrator ground_mode
        = _get_rate_out env v s1 d scaler disable_integrator ground_mode
            (_get_gso_ahrs_data v).aspeed (_get_gso_ahrs_data v).eas2tas
            (_get_gso_ahrs_data v).rate_x ∧
      s1.rate_pid = s.rate_pid ∧ s1._last_out = s._last_out ∧
      s1.airspeed_min = s.airspeed_min ∧ s1.autotune = s.autotune ∧
      (disable_integrator = true → s1.angle_pid.get_i = 0) ∧
      s1.calls.filterMap Call.rate_limit_flag = s.calls.filterMap Call.rate_limit_flag ∧
      s1.calls.filterMap Call.rate_restored = s.calls.filterMap Call.rate_restored ∧
      s1.calls.filterMap Call.autotune_args = s.calls.filterMap Call.autotune_args := by
  refine ⟨_, _, rfl, ?_⟩
  cases disable_integrator <;> dsimp only [record] <;> split_ifs <;>
    simp_all [AC_PID.get_i, AC_PID.reset_I, Call.rate_limit_flag, Call.rate_restored,
      Call.autotune_args]

/-! ## The output range -/

/-- C1: for every build, estimator state, controller state and flags, and every
scaler > 0, each of the three public entry points `get_rate_out`,
`get_servo_out_using_angle_target` and `get_servo_out_using_angle_error`
returns a value in the closed range [-4500, 4500]. -/
theorem entry_points_within_limits (env : Env) (v : Vehicle) (s : AP_RollController)
    (desired_rate scaler : ℚ) (target_angle angle_err : ℤ)
    (disable_integrator ground_mode : Bool) (_hscaler : 0 < scaler) :
    (-4500 ≤ (get_rate_out env v s desired_rate scaler).1 ∧
      (get_rate_out env v s desired_rate scaler).1 ≤ 4500) ∧
    (-4500 ≤ (get_servo_out_using_angle_target env v s target_angle scaler
        disable_integrator ground_mode).1 ∧
      (get_servo_out_using_angle_target env v s target_angle scaler
        disable_integrator ground_mode).1 ≤ 4500) ∧
    (-4500 ≤ (get_servo_out_using_angle_error env v s angle_err target_angle scaler
        disable_integrator ground_mode).1 ∧
      (get_servo_out_using_angle_error env v s angle_err target_angle scaler
        disable_integrator ground_mode).1 ≤ 4500) := by
  refine ⟨_get_rate_out_range _ _ _ _ _ _ _ _ _ _, ?_, ?_⟩
  · obtain ⟨s1, d, h, -⟩ := angle_target_factor env v s target_angle scaler
      disable_integrator ground_mode
    rw [h]
    exact _get_rate_out_range _ _ _ _ _ _ _ _ _ _
  · obtain ⟨s1, d, h, -⟩ := angle_error_factor env v s angle_err target_angle scaler
      disable_integrator ground_mode
    rw [h]
    exact _get_rate_out_range _ _ _ _ _ _ _ _ _ _

/-- Witness of C1 on the bench build: scaler 1, a 10 deg/s rate demand, a 1000
centidegree angle target and a 300 centidegree angle error, integrator enabled,
in the air. -/
theorem entry_points_within_limits_witness :
    (0 : ℚ) < 1 ∧
    ((-4500 ≤ (get_rate_out bench_env bench_vehicle bench_controller 10 1).1 ∧
      (get_rate_out bench_env bench_vehicle bench_controller 10 1).1 ≤ 4500) ∧
    (-4500 ≤ (get_servo_out_using_angle_target bench_env bench_vehicle bench_controller 1000 1
        false false).1 ∧
      (get_servo_out_using_angle_target bench_env bench_vehicle bench_controller 1000 1
        false false).1 ≤ 4500) ∧
    (-4500 ≤ (get_servo_out_using_angle_error bench_env bench_vehicle bench_controller 300 1000 1
        false false).1 ∧
      (get_servo_out_using_angle_error bench_env bench_vehicle bench_controller 300 1000 1
        false false).1 ≤ 4500)) :=
  ⟨by norm_num,
    entry_points_within_limits bench_env bench_vehicle bench_controller 10 1 1000 300
      false false (by norm_num)⟩

/-! ## The integrator under underspeed -/

/-- C2: when `_get_rate_out` is called with aspeed <= airspeed_min, the rate-loop
integrator after the call is the value read before the PID update, or zero
when `disable_integrator` is set; its magnitude is not greater than before
the call. -/
theorem underspeed_integrator_not_increased (env : Env) (v : Vehicle) (s : AP_RollController)
    (desired_rate scaler : ℚ) (disable_integrator ground_mode : Bool)
    (aspeed eas2tas rate_x : ℚ) (hunder : aspeed ≤ (s.airspeed_min : ℚ)) :
    (_get_rate_out env v s desired_rate scaler disable_integrator ground_mode
        aspeed eas2tas rate_x).2.rate_pid.get_i
      = (if disable_integrator = true then 0 else s.rate_pid.get_i) ∧
    |(_get_rate_out env v s desired_rate scaler disable_integrator ground_mode
        aspeed eas2tas rate_x).2.rate_pid.get_i| ≤ |s.rate_pid.get_i| := by
  rw [_get_rate_out_get_i]
  cases disable_integrator <;> simp [hunder]

/-- Witness of C2: the bench controller (integrator at -1/2, minimum airspeed 5)
flown at 3 m/s. -/
theorem underspeed_integrator_not_increased_witness :
    (3 : ℚ) ≤ (bench_controller.airspeed_min : ℚ) ∧
    ((_get_rate_out bench_env bench_vehicle bench_controller 10 1 false false
        3 1 0).2.rate_pid.get_i
      = (if false = true then 0 else bench_controller.rate_pid.get_i) ∧
    |(_get_rate_out bench_env bench_vehicle bench_controller 10 1 false false
        3 1 0).2.rate_pid.get_i| ≤ |bench_controller.rate_pid.get_i|) :=
  ⟨by norm_num [bench_controller],
    underspeed_integrator_not_increased bench_env bench_vehicle bench_controller 10 1
      false false 3 1 0 (by norm_num [bench_controller])⟩

/-! ## Ground mode -/

theorem bench_air_run :
    (_get_rate_out bench_env bench_vehicle bench_controller 10 1 false false 20 1 0).1
      = -187377118524235575 / 70368744177664 ∧
    (_get_rate_out bench_env bench_vehicle bench_controller 10 1 false false 20 1 0).2._pid_info.P
      = 140737488907925 / 70368744177664 ∧
    (_get_rate_out bench_env bench_vehicle bench_controller 10 1 false false 20 1 0).2._pid_info.D
      = 0 := by
  norm_num [_get_rate_out, bench_env, bench_vehicle, bench_controller, record, autotune_running,
    constrain_float, AC_PID.update_all_unfiltered, AC_PID.update_i, AC_PID.zero, AC_PID.get_i,
    AC_PID.set_dt, AC_PID.get_pid_info, AC_PID.get_ff_plain, AC_PID.set_integrator,
    AC_PID.reset_I]

theorem bench_ground_run :
    (_get_rate_out bench_env bench_vehicle bench_controller 10 1 false true 20 1 0).1
      = -194413992969631825 / 70368744177664 := by
  norm_num [_get_rate_out, bench_env, bench_vehicle, bench_controller, record, autotune_running,
    constrain_float, AC_PID.update_all_unfiltered, AC_PID.update_i, AC_PID.zero, AC_PID.get_i,
    AC_PID.set_dt, AC_PID.get_pid_info, AC_PID.get_ff_plain, AC_PID.set_integrator,
    AC_PID.reset_I]

/-- C3, counterexample: on the bench controller, whose rate integrator is wound
to -1/2, a 10 deg/s demand at 20 m/s gives P > 0 and D = 0, a non-ground output
of about -2663 and a ground-mode output of about -2763: the ground-mode
magnitude is the larger one. -/
theorem ground_mode_magnitude_counterexample :
    0 ≤ (_get_rate_out bench_env bench_vehicle bench_controller 10 1 false false
          20 1 0).2._pid_info.P ∧
    0 ≤ (_get_rate_out bench_env bench_vehicle bench_controller 10 1 false false
          20 1 0).2._pid_info.D ∧
    ¬ (|(_get_rate_out bench_env bench_vehicle bench_controller 10 1 false true 20 1 0).1|
        ≤ |(_get_rate_out bench_env bench_vehicle bench_controller 10 1 false false 20 1 0).1|) := by
  obtain ⟨h1, hP, hD⟩ := bench_air_run
  rw [hP, hD, h1, bench_ground_run]
  refine ⟨by norm_num, le_refl _, ?_⟩
  rw [abs_of_neg (by norm_num), abs_of_neg (by norm_num)]
  norm_num

/-- C3, amended: for two `_get_rate_out` calls from the same state with the same
inputs except `ground_mode`, if the P and D contributions are non-negative then
the ground-mode output is not greater than the non-ground-mode output as a
signed value; its magnitude is not greater either whenever the ground-mode sum
is itself non-negative. -/
theorem ground_mode_output_le (env : Env) (v : Vehicle) (s : AP_RollController)
    (desired_rate scaler : ℚ) (disable_integrator : Bool) (aspeed eas2tas rate_x : ℚ)
    (hP : 0 ≤ (_get_rate_out env v s desired_rate scaler disable_integrator false
                aspeed eas2tas rate_x).2._pid_info.P)
    (hD : 0 ≤ (_get_rate_out env v s desired_rate scaler disable_integrator false
                aspeed eas2tas rate_x).2._pid_info.D) :
    (_get_rate_out env v s desired_rate scaler disable_integrator true aspeed eas2tas rate_x).1
      ≤ (_get_rate_out env v s desired_rate scaler disable_integrator false
          aspeed eas2tas rate_x).1 ∧
    (0 ≤ (_get_rate_out env v s desired_rate scaler disable_integrator true
            aspeed eas2tas rate_x).2._last_out →
      |(_get_rate_out env v s desired_rate scaler disable_integrator true
            aspeed eas2tas rate_x).1|
        ≤ |(_get_rate_out env v s desired_rate scaler disable_integrator false
            aspeed eas2tas rate_x).1|) := by
  have hle : (_get_rate_out env v s desired_rate scaler disable_integrator true
        aspeed eas2tas rate_x).2._last_out
      ≤ (_get_rate_out env v s desired_rate scaler disable_integrator false
        aspeed eas2tas rate_x).2._last_out := by
    rw [_get_rate_out_last_out, _get_rate_out_last_out env v s desired_rate scaler
      disable_integrator false, _get_rate_out_pid_info_ground]
    simp only [if_true, Bool.false_eq_true, if_false]
    linarith
  have hmono := constrain_float_mono _ _ (-4500) 4500 (by norm_num)
    (mul_le_mul_of_nonneg_right hle (by norm_num : (0 : ℚ) ≤ 100))
  rw [_get_rate_out_ret, _get_rate_out_ret env v s desired_rate scaler disable_integrator false]
  refine ⟨hmono, fun h0 => ?_⟩
  have hg := constrain_float_nonneg _ (-4500) 4500 (by norm_num) (by norm_num)
    (mul_nonneg h0 (by norm_num : (0 : ℚ) ≤ 100))
  rw [abs_of_nonneg hg, abs_of_nonneg (le_trans hg hmono)]
  exact hmono

/-- Witness of C3 amended: the bench controller with its integrator at +1/4, so
that P >= 0, D = 0 and the ground-mode sum is non-negative; both the signed and
the magnitude inequality hold. -/
theorem ground_mode_output_le_witness :
    0 ≤ (_get_rate_out bench_env bench_vehicle bench_controller_pos 10 1 false false
          20 1 0).2._pid_info.P ∧
    0 ≤ (_get_rate_out bench_env bench_vehicle bench_controller_pos 10 1 false false
          20 1 0).2._pid_info.D ∧
    0 ≤ (_get_rate_out bench_env bench_vehicle bench_controller_pos 10 1 false true
          20 1 0).2._last_out ∧
    (_get_rate_out bench_env bench_vehicle bench_controller_pos 10 1 false true 20 1 0).1
      ≤ (_get_rate_out bench_env bench_vehicle bench_controller_pos 10 1 false false 20 1 0).1 ∧
    |(_get_rate_out bench_env bench_vehicle bench_controller_pos 10 1 false true 20 1 0).1|
      ≤ |(_get_rate_out bench_env bench_vehicle bench_controller_pos 10 1 false false 20 1 0).1| :=
  have hP : 0 ≤ (_get_rate_out bench_env bench_vehicle bench_controller_pos 10 1 false false
      20 1 0).2._pid_info.P := by
    norm_num [_get_rate_out, bench_env, bench_vehicle, bench_controller, bench_controller_pos,
      record, autotune_running, AC_PID.update_all_unfiltered, AC_PID.update_i, AC_PID.zero,
      AC_PID.get_i, AC_PID.set_dt, AC_PID.get_pid_info, AC_PID.get_ff_plain,
      AC_PID.set_integrator, AC_PID.reset_I]
  have hD : 0 ≤ (_get_rate_out bench_env bench_vehicle bench_controller_pos 10 1 false false
      20 1 0).2._pid_info.D := by
    norm_num [_get_rate_out, bench_env, bench_vehicle, bench_controller, bench_controller_pos,
      record, autotune_running, AC_PID.update_all_unfiltered, AC_PID.update_i, AC_PID.zero,
      AC_PID.get_i, AC_PID.set_dt, AC_PID.get_pid_info, AC_PID.get_ff_plain,
      AC_PID.set_integrator, AC_PID.reset_I]
  have h0 : 0 ≤ (_get_rate_out bench_env bench_vehicle bench_controller_pos 10 1 false true
      20 1 0).2._last_out := by
    norm_num [_get_rate_out, bench_env, bench_vehicle, bench_controller, bench_controller_pos,
      record, autotune_running, AC_PID.update_all_unfiltered, AC_PID.update_i, AC_PID.zero,
      AC_PID.get_i, AC_PID.set_dt, AC_PID.get_pid_info, AC_PID.get_ff_plain,
      AC_PID.set_integrator, AC_PID.reset_I]
  ⟨hP, hD, h0,
    (ground_mode_output_le bench_env bench_vehicle bench_controller_pos 10 1 false 20 1 0
      hP hD).1,
    (ground_mode_output_le bench_env bench_vehicle bench_controller_pos 10 1 false 20 1 0
      hP hD).2 h0⟩

/-! ## The stored last output and the anti-windup gate -/

theorem _get_rate_out_limit_flags (env : Env) (v : Vehicle) (s : AP_RollController)
    (desired_rate scaler : ℚ) (disable_integrator ground_mode : Bool)
    (aspeed eas2tas rate_x : ℚ) :
    List.filterMap Call.rate_limit_flag
        (_get_rate_out env v s desired_rate scaler disable_integrator ground_mode
          aspeed eas2tas rate_x).2.calls
      = List.filterMap Call.rate_limit_flag s.calls
          ++ [decide (45 ≤ |s._last_out| ∨ aspeed ≤ (s.airspeed_min : ℚ))] := by
  rw [_get_rate_out_calls]
  simp only [List.filterMap_append]
  split_ifs <;> simp [Call.rate_limit_flag]

theorem _get_rate_out_restored (env : Env) (v : Vehicle) (s : AP_RollController)
    (desired_rate scaler : ℚ) (disable_integrator ground_mode : Bool)
    (aspeed eas2tas rate_x : ℚ) :
    List.filterMap Call.rate_restored
        (_get_rate_out env v s desired_rate scaler disable_integrator ground_mode
          aspeed eas2tas rate_x).2.calls
      = List.filterMap Call.rate_restored s.calls
          ++ (if aspeed ≤ (s.airspeed_min : ℚ) then [s.rate_pid.get_i] else []) := by
  rw [_get_rate_out_calls]
  simp only [List.filterMap_append]
  split_ifs <;> simp [Call.rate_restored]

theorem _get_rate_out_autotune_args (env : Env) (v : Vehicle) (s : AP_RollController)
    (desired_rate scaler : ℚ) (disable_integrator ground_mode : Bool)
    (aspeed eas2tas rate_x : ℚ) :
    List.filterMap Call.autotune_args
        (_get_rate_out env v s desired_rate scaler disable_integrator ground_mode
          aspeed eas2tas rate_x).2.calls
      = List.filterMap Call.autotune_args s.calls
          ++ (if s.autotune_running = true ∧ (s.airspeed_min : ℚ) < aspeed then
                [((_get_rate_out env v s desired_rate scaler disable_integrator ground_mode
                    aspeed eas2tas rate_x).2._pid_info, scaler, s.angle_err_deg)]
              else []) := by
  rw [_get_rate_out_calls]
  simp only [List.filterMap_append]
  split_ifs <;> simp [Call.autotune_args]

theorem bench_saturated_run :
    (_get_rate_out bench_env bench_vehicle bench_controller 10 1 false false 20 1 (-10)).1
      = 4500 ∧
    (_get_rate_out bench_env bench_vehicle bench_controller 10 1 false false
        20 1 (-10)).2._last_out
      = 125410593057533173 / 1407374883553280 := by
  norm_num [_get_rate_out, bench_env, bench_vehicle, bench_controller, record, autotune_running,
    constrain_float, AC_PID.update_all_unfiltered, AC_PID.update_i, AC_PID.zero, AC_PID.get_i,
    AC_PID.set_dt, AC_PID.get_pid_info, AC_PID.get_ff_plain, AC_PID.set_integrator,
    AC_PID.reset_I]

/-- C4, counterexample: the bench controller with a 10 deg/s demand against a
measured roll rate of -10 rad/s returns the clamped 4500 while the stored
`_last_out` is about 89.1: it is not the returned value divided by 100 and its
magnitude exceeds 45. -/
theorem last_out_clamped_counterexample :
    (_get_rate_out bench_env bench_vehicle bench_controller 10 1 false false
        20 1 (-10)).2._last_out
      ≠ (_get_rate_out bench_env bench_vehicle bench_controller 10 1 false false
          20 1 (-10)).1 / 100 ∧
    ¬ (|(_get_rate_out bench_env bench_vehicle bench_controller 10 1 false false
          20 1 (-10)).2._last_out| ≤ 45) := by
  obtain ⟨h1, h2⟩ := bench_saturated_run
  rw [h1, h2]
  refine ⟨by norm_num, ?_⟩
  rw [abs_of_pos (by norm_num)]
  norm_num

/-- C4, amended: after every call of `_get_rate_out` the stored `_last_out` is the
unclamped sum FF + P + I + D (less D + P/2 in ground mode); the returned
deflection is that sum times 100 clamped to [-4500, 4500], so `_last_out` equals
the returned deflection divided by 100 exactly when its magnitude is at most
45; and it is this unclamped value that the next tick's anti-windup gate
compares against 45. -/
theorem last_out_is_unclamped_sum (env : Env) (v : Vehicle) (s : AP_RollController)
    (desired_rate scaler : ℚ) (disable_integrator ground_mode : Bool)
    (aspeed eas2tas rate_x : ℚ) :
    (_get_rate_out env v s desired_rate scaler disable_integrator ground_mode
        aspeed eas2tas rate_x).2._last_out
      = (fun pinfo : AP_PIDInfo =>
          pinfo.FF + pinfo.P + pinfo.I + pinfo.D
            - (if ground_mode = true then pinfo.D + (1 / 2) * pinfo.P else 0))
        (_get_rate_out env v s desired_rate scaler disable_integrator ground_mode
          aspeed eas2tas rate_x).2._pid_info ∧
    (_get_rate_out env v s desired_rate scaler disable_integrator ground_mode
        aspeed eas2tas rate_x).1
      = constrain_float
          ((_get_rate_out env v s desired_rate scaler disable_integrator ground_mode
            aspeed eas2tas rate_x).2._last_out * 100) (-4500) 4500 ∧
    ((_get_rate_out env v s desired_rate scaler disable_integrator ground_mode
          aspeed eas2tas rate_x).2._last_out
        = (_get_rate_out env v s desired_rate scaler disable_integrator ground_mode
            aspeed eas2tas rate_x).1 / 100
      ↔ |(_get_rate_out env v s desired_rate scaler disable_integrator ground_mode
            aspeed eas2tas rate_x).2._last_out| ≤ 45) ∧
    (∀ (v2 : Vehicle) (desired_rate2 scaler2 : ℚ) (disable_integrator2 ground_mode2 : Bool)
        (aspeed2 eas2tas2 rate_x2 : ℚ),
      List.filterMap Call.rate_limit_flag
          (_get_rate_out env v2
            (_get_rate_out env v s desired_rate scaler disable_integrator ground_mode
              aspeed eas2tas rate_x).2
            desired_rate2 scaler2 disable_integrator2 ground_mode2
            aspeed2 eas2tas2 rate_x2).2.calls
        = List.filterMap Call.rate_limit_flag
            (_get_rate_out env v s desired_rate scaler disable_integrator ground_mode
              aspeed eas2tas rate_x).2.calls
          ++ [decide (45 ≤ |(_get_rate_out env v s desired_rate scaler disable_integrator
                  ground_mode aspeed eas2tas rate_x).2._last_out|
                ∨ aspeed2 ≤ (s.airspeed_min : ℚ))]) := by
  refine ⟨_get_rate_out_last_out _ _ _ _ _ _ _ _ _ _, _get_rate_out_ret _ _ _ _ _ _ _ _ _ _,
    ?_, ?_⟩
  · rw [_get_rate_out_ret]
    generalize (_get_rate_out env v s desired_rate scaler disable_integrator ground_mode
      aspeed eas2tas rate_x).2._last_out = x
    constructor
    · intro h
      have hm := constrain_float_mem (x * 100) (-4500) 4500 (by norm_num)
      rw [abs_le]
      constructor <;> linarith [hm.1, hm.2]
    · intro h
      rw [abs_le] at h
      rw [constrain_float_of_mem _ _ _ (by linarith [h.1]) (by linarith [h.2])]
      ring
  · intro v2 desired_rate2 scaler2 disable_integrator2 ground_mode2 aspeed2 eas2tas2 rate_x2
    rw [_get_rate_out_limit_flags,
      (_get_rate_out_frame env v s desired_rate scaler disable_integrator ground_mode
        aspeed eas2tas rate_x).2.2]

/-- C5: in every call of `_get_rate_out` exactly one `rate_pid.update_all` call is
made; its integrator-limit flag is true if and only if the magnitude of the
stored previous output is at least 45 or aspeed <= airspeed_min, and false in
every other case; the rate PID after the call is the result of that update,
followed by the underspeed restore and the integrator reset when they apply. -/
theorem integrator_limit_flag_iff (env : Env) (v : Vehicle) (s : AP_RollController)
    (desired_rate scaler : ℚ) (disable_integrator ground_mode : Bool)
    (aspeed eas2tas rate_x : ℚ) :
    ∃ limit_I : Bool,
      (limit_I = true ↔ (45 ≤ |s._last_out| ∨ aspeed ≤ (s.airspeed_min : ℚ))) ∧
      List.filterMap Call.rate_limit_flag
          (_get_rate_out env v s desired_rate scaler disable_integrator ground_mode
            aspeed eas2tas rate_x).2.calls
        = List.filterMap Call.rate_limit_flag s.calls ++ [limit_I] ∧
      (_get_rate_out env v s desired_rate scaler disable_integrator ground_mode
          aspeed eas2tas rate_x).2.rate_pid
        = (fun p : AC_PID => if disable_integrator = true then p.reset_I else p)
            ((fun p : AC_PID =>
                if aspeed ≤ (s.airspeed_min : ℚ) then p.set_integrator s.rate_pid.get_i else p)
              (env.update_all (s.rate_pid.set_dt v.loop_period_s)
                (env.radians desired_rate * scaler * scaler) (rate_x * scaler * scaler)
                limit_I)) :=
  ⟨decide (45 ≤ |s._last_out| ∨ aspeed ≤ (s.airspeed_min : ℚ)), decide_eq_true_iff,
    _get_rate_out_limit_flags _ _ _ _ _ _ _ _ _ _, _get_rate_out_rate_pid _ _ _ _ _ _ _ _ _ _⟩

/-! ## The integrator-disable flag -/

/-- C6: with `disable_integrator` set, the rate-loop integrator is zero after
`_get_rate_out` (whatever the airspeed, so also after an underspeed restore),
and both the angle-loop and the rate-loop integrators are zero after
`get_servo_out_using_angle_target` and `get_servo_out_using_angle_error`. -/
theorem disable_integrator_zeroes (env : Env) (v : Vehicle) (s : AP_RollController)
    (desired_rate scaler : ℚ) (target_angle angle_err : ℤ) (ground_mode : Bool)
    (aspeed eas2tas rate_x : ℚ) :
    (_get_rate_out env v s desired_rate scaler true ground_mode
        aspeed eas2tas rate_x).2.rate_pid.get_i = 0 ∧
    ((get_servo_out_using_angle_target env v s target_angle scaler true
        ground_mode).2.angle_pid.get_i = 0 ∧
      (get_servo_out_using_angle_target env v s target_angle scaler true
        ground_mode).2.rate_pid.get_i = 0) ∧
    ((get_servo_out_using_angle_error env v s angle_err target_angle scaler true
        ground_mode).2.angle_pid.get_i = 0 ∧
      (get_servo_out_using_angle_error env v s angle_err target_angle scaler true
        ground_mode).2.rate_pid.get_i = 0) := by
  refine ⟨by rw [_get_rate_out_get_i]; simp, ?_, ?_⟩
  · obtain ⟨s1, d, h, -, -, -, -, hz, -⟩ := angle_target_factor env v s target_angle scaler
      true ground_mode
    rw [h, (_get_rate_out_frame env v s1 d scaler true ground_mode _ _ _).1,
      _get_rate_out_get_i]
    exact ⟨hz rfl, by simp⟩
  · obtain ⟨s1, d, h, -, -, -, -, hz, -⟩ := angle_error_factor env v s angle_err target_angle
      scaler true ground_mode
    rw [h, (_get_rate_out_frame env v s1 d scaler true ground_mode _ _ _).1,
      _get_rate_out_get_i]
    exact ⟨hz rfl, by simp⟩

/-! ## The rate clamp of `_get_servo_out` -/

/-- C7: `_get_servo_out` hands the desired rate to the rate loop clamped
symmetrically by `rmax_pos`: for rmax > 0 the rate loop is run on d itself when
-rmax <= d <= rmax, on rmax when d > rmax and on -rmax when d < -rmax; for
rmax = 0 it is run on d unchanged. -/
theorem servo_out_rate_clamp (env : Env) (v : Vehicle) (s : AP_RollController)
    (d scaler : ℚ) (disable_integrator ground_mode : Bool) (ahrs_data : GSO_AHRS_Data) :
    (0 < s.rmax_pos →
      (-(s.rmax_pos : ℚ) ≤ d → d ≤ (s.rmax_pos : ℚ) →
        _get_servo_out env v s d scaler disable_integrator ground_mode ahrs_data
          = _get_rate_out env v s d scaler disable_integrator ground_mode
              ahrs_data.aspeed ahrs_data.eas2tas ahrs_data.rate_x) ∧
      ((s.rmax_pos : ℚ) < d →
        _get_servo_out env v s d scaler disable_integrator ground_mode ahrs_data
          = _get_rate_out env v s (s.rmax_pos : ℚ) scaler disable_integrator ground_mode
              ahrs_data.aspeed ahrs_data.eas2tas ahrs_data.rate_x) ∧
      (d < -(s.rmax_pos : ℚ) →
        _get_servo_out env v s d scaler disable_integrator ground_mode ahrs_data
          = _get_rate_out env v s (-(s.rmax_pos : ℚ)) scaler disable_integrator ground_mode
              ahrs_data.aspeed ahrs_data.eas2tas ahrs_data.rate_x)) ∧
    (s.rmax_pos = 0 →
      _get_servo_out env v s d scaler disable_integrator ground_mode ahrs_data
        = _get_rate_out env v s d scaler disable_integrator ground_mode
            ahrs_data.aspeed ahrs_data.eas2tas ahrs_data.rate_x) := by
  refine ⟨fun hpos => ?_, fun h0 => ?_⟩
  · have hq : (0 : ℚ) < (s.rmax_pos : ℚ) := by exact_mod_cast hpos
    have hne : s.rmax_pos ≠ 0 := ne_of_gt hpos
    refine ⟨fun h1 h2 => ?_, fun h1 => ?_, fun h1 => ?_⟩
    · simp only [_get_servo_out, Int.cast_neg]
      rw [if_neg (fun h => absurd h.2 (not_lt.mpr h1)),
        if_neg (fun h => absurd h.2 (not_lt.mpr h2))]
    · simp only [_get_servo_out, Int.cast_neg]
      rw [if_neg (fun h => absurd h.2 (not_lt.mpr (by linarith))), if_pos ⟨hne, h1⟩]
    · simp only [_get_servo_out, Int.cast_neg]
      rw [if_pos ⟨hne, h1⟩]
  · simp only [_get_servo_out]
    rw [if_neg (fun h => h.1 h0), if_neg (fun h => h.1 h0)]

/-- Witness of C7: with rmax = 60 a demand of 30 is forwarded unchanged, a demand
of 100 is forwarded as 60 and a demand of -100 as -60; with rmax = 0 a demand of
100 is forwarded unchanged. -/
theorem servo_out_rate_clamp_witness :
    (0 < bench_controller_rmax.rmax_pos ∧
      -(bench_controller_rmax.rmax_pos : ℚ) ≤ 30 ∧ (30 : ℚ) ≤ (bench_controller_rmax.rmax_pos : ℚ) ∧
      _get_servo_out bench_env bench_vehicle bench_controller_rmax 30 1 false false
          (_get_gso_ahrs_data bench_vehicle)
        = _get_rate_out bench_env bench_vehicle bench_controller_rmax 30 1 false false
            (_get_gso_ahrs_data bench_vehicle).aspeed (_get_gso_ahrs_data bench_vehicle).eas2tas
            (_get_gso_ahrs_data bench_vehicle).rate_x) ∧
    ((bench_controller_rmax.rmax_pos : ℚ) < 100 ∧
      _get_servo_out bench_env bench_vehicle bench_controller_rmax 100 1 false false
          (_get_gso_ahrs_data bench_vehicle)
        = _get_rate_out bench_env bench_vehicle bench_controller_rmax
            (bench_controller_rmax.rmax_pos : ℚ) 1 false false
            (_get_gso_ahrs_data bench_vehicle).aspeed (_get_gso_ahrs_data bench_vehicle).eas2tas
            (_get_gso_ahrs_data bench_vehicle).rate_x) ∧
    ((-100 : ℚ) < -(bench_controller_rmax.rmax_pos : ℚ) ∧
      _get_servo_out bench_env bench_vehicle bench_controller_rmax (-100) 1 false false
          (_get_gso_ahrs_data bench_vehicle)
        = _get_rate_out bench_env bench_vehicle bench_controller_rmax
            (-(bench_controller_rmax.rmax_pos : ℚ)) 1 false false
            (_get_gso_ahrs_data bench_vehicle).aspeed (_get_gso_ahrs_data bench_vehicle).eas2tas
            (_get_gso_ahrs_data bench_vehicle).rate_x) ∧
    (bench_controller.rmax_pos = 0 ∧
      _get_servo_out bench_env bench_vehicle bench_controller 100 1 false false
          (_get_gso_ahrs_data bench_vehicle)
        = _get_rate_out bench_env bench_vehicle bench_controller 100 1 false false
            (_get_gso_ahrs_data bench_vehicle).aspeed (_get_gso_ahrs_data bench_vehicle).eas2tas
            (_get_gso_ahrs_data bench_vehicle).rate_x) :=
  have hpos : 0 < bench_controller_rmax.rmax_pos := by
    norm_num [bench_controller_rmax, bench_controller]
  have hlo : -(bench_controller_rmax.rmax_pos : ℚ) ≤ 30 := by
    norm_num [bench_controller_rmax, bench_controller]
  have hhi : (30 : ℚ) ≤ (bench_controller_rmax.rmax_pos : ℚ) := by
    norm_num [bench_controller_rmax, bench_controller]
  have habove : (bench_controller_rmax.rmax_pos : ℚ) < 100 := by
    norm_num [bench_controller_rmax, bench_controller]
  have hbelow : (-100 : ℚ) < -(bench_controller_rmax.rmax_pos : ℚ) := by
    norm_num [bench_controller_rmax, bench_controller]
  have hzero : bench_controller.rmax_pos = 0 := rfl
  ⟨⟨hpos, hlo, hhi,
      ((servo_out_rate_clamp bench_env bench_vehicle bench_controller_rmax 30 1 false false
        (_get_gso_ahrs_data bench_vehicle)).1 hpos).1 hlo hhi⟩,
    ⟨habove,
      ((servo_out_rate_clamp bench_env bench_vehicle bench_controller_rmax 100 1 false false
        (_get_gso_ahrs_data bench_vehicle)).1 hpos).2.1 habove⟩,
    ⟨hbelow,
      ((servo_out_rate_clamp bench_env bench_vehicle bench_controller_rmax (-100) 1 false false
        (_get_gso_ahrs_data bench_vehicle)).1 hpos).2.2 hbelow⟩,
    ⟨hzero,
      (servo_out_rate_clamp bench_env bench_vehicle bench_controller 100 1 false false
        (_get_gso_ahrs_data bench_vehicle)).2 hzero⟩⟩

/-! ## A missing airspeed estimate -/

theorem _get_gso_ahrs_data_no_airspeed (v : Vehicle) (h : v.ahrs.airspeed_estimate = none) :
    (_get_gso_ahrs_data v).aspeed = 0 := by
  simp [_get_gso_ahrs_data, h]

theorem _get_rate_out_underspeed (env : Env) (v : Vehicle) (s s1 : AP_RollController)
    (desired_rate scaler : ℚ) (disable_integrator ground_mode : Bool)
    (aspeed eas2tas rate_x : ℚ) (hunder : aspeed ≤ (s1.airspeed_min : ℚ))
    (hpid : s1.rate_pid = s.rate_pid)
    (hflags : List.filterMap Call.rate_limit_flag s1.calls
      = List.filterMap Call.rate_limit_flag s.calls)
    (hrestored : List.filterMap Call.rate_restored s1.calls
      = List.filterMap Call.rate_restored s.calls)
    (hargs : List.filterMap Call.autotune_args s1.calls
      = List.filterMap Call.autotune_args s.calls) :
    UnderspeedTick s disable_integrator
      (_get_rate_out env v s1 desired_rate scaler disable_integrator ground_mode
        aspeed eas2tas rate_x) := by
  refine ⟨?_, ?_, ?_, ?_, _get_rate_out_range _ _ _ _ _ _ _ _ _ _⟩
  · rw [_get_rate_out_limit_flags, hflags]
    simp [hunder]
  · rw [_get_rate_out_restored, hrestored, hpid]
    simp [hunder]
  · rw [_get_rate_out_autotune_args, hargs]
    simp [not_lt.mpr hunder]
  · rw [_get_rate_out_get_i, hpid]
    simp [hunder]

/-- C8: when the estimator has no airspeed estimate, `_get_gso_ahrs_data` yields
aspeed = 0, and for every airspeed_min >= 0 each of the three entry points then
runs an underspeed tick: the integrator-limit flag is set, the integrator is
restored to its pre-update value (and then zeroed if `disable_integrator` is
set), autotune is not updated, and the returned deflection is a number in
[-4500, 4500]. -/
theorem missing_airspeed_is_underspeed (env : Env) (v : Vehicle) (s : AP_RollController)
    (desired_rate scaler : ℚ) (target_angle angle_err : ℤ)
    (disable_integrator ground_mode : Bool)
    (hnone : v.ahrs.airspeed_estimate = none) (hmin : 0 ≤ s.airspeed_min) :
    (_get_gso_ahrs_data v).aspeed = 0 ∧
    UnderspeedTick s false (get_rate_out env v s desired_rate scaler) ∧
    UnderspeedTick s disable_integrator
      (get_servo_out_using_angle_target env v s target_angle scaler
        disable_integrator ground_mode) ∧
    UnderspeedTick s disable_integrator
      (get_servo_out_using_angle_error env v s angle_err target_angle scaler
        disable_integrator ground_mode) := by
  have h0 := _get_gso_ahrs_data_no_airspeed v hnone
  have hq : (0 : ℚ) ≤ (s.airspeed_min : ℚ) := by exact_mod_cast hmin
  refine ⟨h0, ?_, ?_, ?_⟩
  · exact _get_rate_out_underspeed env v s s _ _ _ _ _ _ _ (by rw [h0]; exact hq)
      rfl rfl rfl rfl
  · obtain ⟨s1, d, h, hpid, -, hmin1, -, -, hf, hr, ha⟩ :=
      angle_target_factor env v s target_angle scaler disable_integrator ground_mode
    rw [h]
    exact _get_rate_out_underspeed env v s s1 _ _ _ _ _ _ _ (by rw [h0, hmin1]; exact hq)
      hpid hf hr ha
  · obtain ⟨s1, d, h, hpid, -, hmin1, -, -, hf, hr, ha⟩ :=
      angle_error_factor env v s angle_err target_angle scaler disable_integrator ground_mode
    rw [h]
    exact _get_rate_out_underspeed env v s s1 _ _ _ _ _ _ _ (by rw [h0, hmin1]; exact hq)
      hpid hf hr ha

/-- Witness of C8: the bench controller (minimum airspeed 5) on the bench vehicle
without an airspeed estimate, integrator enabled, in the air. -/
theorem missing_airspeed_is_underspeed_witness :
    bench_vehicle_no_airspeed.ahrs.airspeed_estimate = none ∧
    0 ≤ bench_controller.airspeed_min ∧
    ((_get_gso_ahrs_data bench_vehicle_no_airspeed).aspeed = 0 ∧
    UnderspeedTick bench_controller false
      (get_rate_out bench_env bench_vehicle_no_airspeed bench_controller 10 1) ∧
    UnderspeedTick bench_controller false
      (get_servo_out_using_angle_target bench_env bench_vehicle_no_airspeed bench_controller
        1000 1 false false) ∧
    UnderspeedTick bench_controller false
      (get_servo_out_using_angle_error bench_env bench_vehicle_no_airspeed bench_controller
        300 1000 1 false false)) :=
  ⟨rfl, by norm_num [bench_controller],
    missing_airspeed_is_underspeed bench_env bench_vehicle_no_airspeed bench_controller
      10 1 1000 300 false false rfl (by norm_num [bench_controller])⟩

/-! ## `reset_I` -/

/-- C9, counterexample: after one tick of the bench controller (10 deg/s demand at
20 m/s) the cached rate-loop snapshot holds target = 10 and P > 0; `reset_I`
leaves both in place, so the snapshot is not cleared. -/
theorem reset_I_snapshot_counterexample :
    (AP_RollController.reset_I
        (_get_rate_out bench_env bench_vehicle bench_controller 10 1 false false
          20 1 0).2)._pid_info.target = 10 ∧
    (AP_RollController.reset_I
        (_get_rate_out bench_env bench_vehicle bench_controller 10 1 false false
          20 1 0).2)._pid_info.P = 140737488907925 / 70368744177664 ∧
    (AP_RollController.reset_I
        (_get_rate_out bench_env bench_vehicle bench_controller 10 1 false false
          20 1 0).2)._pid_info
      ≠ { target := 0, actual := 0, error := 0, P := 0, I := 0, D := 0, FF := 0 } := by
  have ht : (AP_RollController.reset_I
      (_get_rate_out bench_env bench_vehicle bench_controller 10 1 false false
        20 1 0).2)._pid_info.target = 10 := by
    norm_num [AP_RollController.reset_I, _get_rate_out, bench_env, bench_vehicle,
      bench_controller, record, autotune_running, AC_PID.update_all_unfiltered,
      AC_PID.update_i, AC_PID.zero, AC_PID.get_i, AC_PID.set_dt, AC_PID.get_pid_info,
      AC_PID.get_ff_plain, AC_PID.set_integrator, AC_PID.reset_I]
  refine ⟨ht, ?_, fun h => ?_⟩
  · exact bench_air_run.2.1
  · rw [h] at ht
    norm_num at ht

/-- C9, amended: after `reset_I`, from every controller state, the rate-loop and
angle-loop integrator accumulators are 0 and the I contribution of the cached
rate-loop and angle-loop snapshots is 0; the other fields of the two cached
snapshots (target, actual, error, P, D, FF) are left as they were. -/
theorem reset_I_zeroes_integrators (s : AP_RollController) :
    (AP_RollController.reset_I s).rate_pid.get_i = 0 ∧
    (AP_RollController.reset_I s).angle_pid.get_i = 0 ∧
    (AP_RollController.reset_I s)._pid_info = { s._pid_info with I := 0 } ∧
    (AP_RollController.reset_I s)._angle_pid_info = { s._angle_pid_info with I := 0 } := by
  simp [AP_RollController.reset_I, record, AC_PID.reset_I, AC_PID.get_i]

/-! ## Autotune start and restore -/

theorem autotune_start_first (env : Env) (s : AP_RollController) (h : s.autotune = none) :
    (autotune_start env s true).autotune = some { running := true } ∧
    (autotune_start env s true).angle_pid.kI = 0 ∧
    (autotune_start env s true).angle_pid.filt_T_hz = 0 ∧
    (autotune_start env s true).angle_i_backup = s.angle_pid.kI ∧
    (autotune_start env s true).angle_fltt_backup = s.angle_pid.filt_T_hz := by
  simp [autotune_start, h, record, AP_AutoTune.new, AP_AutoTune.start, AC_PID.kI,
    AC_PID.set_kI, AC_PID.set_kD, AC_PID.filt_T_hz, AC_PID.set_filt_T_hz]

theorem autotune_start_again (env : Env) (s : AP_RollController) (alloc_ok : Bool)
    (a : AP_AutoTune) (h : s.autotune = some a) :
    (autotune_start env s alloc_ok).autotune = some { running := true } ∧
    (autotune_start env s alloc_ok).angle_pid = s.angle_pid ∧
    (autotune_start env s alloc_ok).angle_i_backup = s.angle_i_backup ∧
    (autotune_start env s alloc_ok).angle_fltt_backup = s.angle_fltt_backup := by
  simp [autotune_start, h, record, AP_AutoTune.start]

theorem autotune_start_repeated (env : Env) (rest : List Bool) (t : AP_RollController)
    (h : t.autotune = some { running := true }) :
    (rest.foldl (autotune_start env) t).autotune = some { running := true } ∧
    (rest.foldl (autotune_start env) t).angle_pid = t.angle_pid ∧
    (rest.foldl (autotune_start env) t).angle_i_backup = t.angle_i_backup ∧
    (rest.foldl (autotune_start env) t).angle_fltt_backup = t.angle_fltt_backup := by
  induction rest generalizing t with
  | nil => exact ⟨h, rfl, rfl, rfl⟩
  | cons b rest ih =>
    obtain ⟨h1, h2, h3, h4⟩ := autotune_start_again env t b _ h
    obtain ⟨k1, k2, k3, k4⟩ := ih (autotune_start env t b) h1
    rw [List.foldl_cons]
    exact ⟨k1, k2.trans h2, k3.trans h3, k4.trans h4⟩

theorem autotune_restore_running (t : AP_RollController) (a : AP_AutoTune)
    (h : t.autotune = some a) :
    (autotune_restore t).angle_pid.kI = t.angle_i_backup ∧
    (autotune_restore t).angle_pid.filt_T_hz = t.angle_fltt_backup := by
  simp [autotune_restore, h, record, AC_PID.kI, AC_PID.set_kI, AC_PID.filt_T_hz,
    AC_PID.set_filt_T_hz]

/-- C10: from a controller without an autotune object, after a first
`autotune_start` whose allocation succeeds and any number of further
`autotune_start` calls, autotune is running and the angle-loop integral gain and
the backed-up filter cut-off are both 0; `autotune_restore` then gives both the
values they had before the first `autotune_start`. -/
theorem autotune_start_restore_round_trip (env : Env) (s : AP_RollController)
    (rest : List Bool) (hnull : s.autotune = none) :
    ((rest.foldl (autotune_start env) (autotune_start env s true)).autotune_running = true ∧
      (rest.foldl (autotune_start env) (autotune_start env s true)).angle_pid.kI = 0 ∧
      (rest.foldl (autotune_start env) (autotune_start env s true)).angle_pid.filt_T_hz = 0) ∧
    (autotune_restore
        (rest.foldl (autotune_start env) (autotune_start env s true))).angle_pid.kI
      = s.angle_pid.kI ∧
    (autotune_restore
        (rest.foldl (autotune_start env) (autotune_start env s true))).angle_pid.filt_T_hz
      = s.angle_pid.filt_T_hz := by
  obtain ⟨h1, h2, h3, h4, h5⟩ := autotune_start_first env s hnull
  obtain ⟨k1, k2, k3, k4⟩ := autotune_start_repeated env rest _ h1
  obtain ⟨r1, r2⟩ := autotune_restore_running _ _ k1
  refine ⟨⟨?_, ?_, ?_⟩, ?_, ?_⟩
  · simp [autotune_running, k1]
  · rw [k2]; exact h2
  · rw [k2]; exact h3
  · rw [r1, k3]; exact h4
  · rw [r2, k4]; exact h5

/-- Witness of C10: the bench controller (angle-loop integral gain 0.1, filter
cut-off 3 Hz, no autotune object) started three times and restored. -/
theorem autotune_start_restore_round_trip_witness :
    bench_controller.autotune = none ∧
    ((([true, false].foldl (autotune_start bench_env)
          (autotune_start bench_env bench_controller true)).autotune_running = true ∧
      ([true, false].foldl (autotune_start bench_env)
          (autotune_start bench_env bench_controller true)).angle_pid.kI = 0 ∧
      ([true, false].foldl (autotune_start bench_env)
          (autotune_start bench_env bench_controller true)).angle_pid.filt_T_hz = 0) ∧
    (autotune_restore
        ([true, false].foldl (autotune_start bench_env)
          (autotune_start bench_env bench_controller true))).angle_pid.kI
      = bench_controller.angle_pid.kI ∧
    (autotune_restore
        ([true, false].foldl (autotune_start bench_env)
          (autotune_start bench_env bench_controller true))).angle_pid.filt_T_hz
      = bench_controller.angle_pid.filt_T_hz) :=
  ⟨rfl, autotune_start_restore_round_trip bench_env bench_controller [true, false] rfl⟩

/-! ## The autotune update -/

theorem _get_rate_out_pid_info (env : Env) (v : Vehicle) (s : AP_RollController)
    (desired_rate scaler : ℚ) (disable_integrator ground_mode : Bool)
    (aspeed eas2tas rate_x : ℚ) :
    (_get_rate_out env v s desired_rate scaler disable_integrator ground_mode
      aspeed eas2tas rate_x).2._pid_info =
    { target := desired_rate
      actual := env.degrees rate_x
      error := (_get_rate_out env v s desired_rate scaler disable_integrator ground_mode
        aspeed eas2tas rate_x).2.rate_pid.get_pid_info.error
      P := (_get_rate_out env v s desired_rate scaler disable_integrator ground_mode
        aspeed eas2tas rate_x).2.rate_pid.get_pid_info.P * env.degrees 1
      I := (_get_rate_out env v s desired_rate scaler disable_integrator ground_mode
        aspeed eas2tas rate_x).2.rate_pid.get_pid_info.I * env.degrees 1
      D := (_get_rate_out env v s desired_rate scaler disable_integrator ground_mode
        aspeed eas2tas rate_x).2.rate_pid.get_pid_info.D * env.degrees 1
      FF := env.degrees (env.get_ff
          ((fun p : AC_PID =>
              if aspeed ≤ (s.airspeed_min : ℚ) then p.set_integrator s.rate_pid.get_i else p)
            (env.update_all (s.rate_pid.set_dt v.loop_period_s)
              (env.radians desired_rate * scaler * scaler) (rate_x * scaler * scaler)
              (decide (45 ≤ |s._last_out| ∨ aspeed ≤ (s.airspeed_min : ℚ)))))
          / (scaler * eas2tas)) } := by
  by_cases ha : s.autotune_running = true <;> simp only [autotune_running] at ha <;>
  rcases lt_or_le (s.airspeed_min : ℚ) aspeed with hn | hu
  · have hu : ¬ aspeed ≤ (s.airspeed_min : ℚ) := not_le.mpr hn
    cases disable_integrator <;> cases ground_mode <;>
      simp [_get_rate_out, record, autotune_running, hu, hn, ha, AC_PID.get_pid_info,
        AC_PID.reset_I]
  · have hn : ¬ (s.airspeed_min : ℚ) < aspeed := not_lt.mpr hu
    cases disable_integrator <;> cases ground_mode <;>
      simp [_get_rate_out, record, autotune_running, hu, hn, ha, AC_PID.get_pid_info,
        AC_PID.reset_I]
  · have hu : ¬ aspeed ≤ (s.airspeed_min : ℚ) := not_le.mpr hn
    cases disable_integrator <;> cases ground_mode <;>
      simp [_get_rate_out, record, autotune_running, hu, hn, ha, AC_PID.get_pid_info,
        AC_PID.reset_I]
  · have hn : ¬ (s.airspeed_min : ℚ) < aspeed := not_lt.mpr hu
    cases disable_integrator <;> cases ground_mode <;>
      simp [_get_rate_out, record, autotune_running, hu, hn, ha, AC_PID.get_pid_info,
        AC_PID.reset_I]

theorem _get_rate_out_angle_err_deg (env : Env) (v : Vehicle) (s : AP_RollController)
    (desired_rate scaler : ℚ) (disable_integrator ground_mode : Bool)
    (aspeed eas2tas rate_x : ℚ) :
    (_get_rate_out env v s desired_rate scaler disable_integrator ground_mode
      aspeed eas2tas rate_x).2.angle_err_deg = s.angle_err_deg := by
  by_cases ha : s.autotune_running = true <;> simp only [autotune_running] at ha <;>
  rcases lt_or_le (s.airspeed_min : ℚ) aspeed with hn | hu
  · have hu : ¬ aspeed ≤ (s.airspeed_min : ℚ) := not_le.mpr hn
    cases disable_integrator <;> cases ground_mode <;>
      simp [_get_rate_out, record, autotune_running, hu, hn, ha]
  · have hn : ¬ (s.airspeed_min : ℚ) < aspeed := not_lt.mpr hu
    cases disable_integrator <;> cases ground_mode <;>
      simp [_get_rate_out, record, autotune_running, hu, hn, ha]
  · have hu : ¬ aspeed ≤ (s.airspeed_min : ℚ) := not_le.mpr hn
    cases disable_integrator <;> cases ground_mode <;>
      simp [_get_rate_out, record, autotune_running, hu, hn, ha]
  · have hn : ¬ (s.airspeed_min : ℚ) < aspeed := not_lt.mpr hu
    cases disable_integrator <;> cases ground_mode <;>
      simp [_get_rate_out, record, autotune_running, hu, hn, ha]

theorem autotune_running_iff (s : AP_RollController) :
    s.autotune_running = true ↔ ∃ a : AP_AutoTune, s.autotune = some a ∧ a.running = true := by
  unfold autotune_running
  cases h : s.autotune with
  | none => simp
  | some a => simp

theorem angle_target_entry (env : Env) (v : Vehicle) (s : AP_RollController)
    (target_angle : ℤ) (scaler : ℚ) (disable_integrator ground_mode : Bool) :
    ∃ (s1 : AP_RollController) (d : ℚ),
      get_servo_out_using_angle_target env v s target_angle scaler disable_integrator ground_mode
        = _get_rate_out env v s1 d scaler disable_integrator ground_mode
            (_get_gso_ahrs_data v).aspeed (_get_gso_ahrs_data v).eas2tas
            (_get_gso_ahrs_data v).rate_x ∧
      s1.angle_err_deg
        = (target_angle : ℚ) * (1 / 100) - ((_get_gso_ahrs_data v).roll_sensor : ℚ) * (1 / 100) ∧
      s1.calls = s.calls ++ [Call.angle_set_dt v.loop_period_s]
        ++ (if 2 < (target_angle : ℚ) * (1 / 100)
                - ((_get_gso_ahrs_data v).roll_sensor : ℚ) * (1 / 100)
            then [Call.angle_relax_integrator 0 (1 / 10)] else [])
        ++ [Call.angle_update_all ((target_angle : ℚ) * (1 / 100))
              (((_get_gso_ahrs_data v).roll_sensor : ℚ) * (1 / 100)) false]
        ++ (if disable_integrator = true then [Call.angle_reset_I] else []) ∧
      s1.angle_pid
        = (fun p : AC_PID => if disable_integrator = true then p.reset_I else p)
            (env.update_all
              (if 2 < (target_angle : ℚ) * (1 / 100)
                  - ((_get_gso_ahrs_data v).roll_sensor : ℚ) * (1 / 100)
                then env.relax_integrator (s.angle_pid.set_dt v.loop_period_s) 0 (1 / 10)
                else s.angle_pid.set_dt v.loop_period_s)
              ((target_angle : ℚ) * (1 / 100))
              (((_get_gso_ahrs_data v).roll_sensor : ℚ) * (1 / 100)) false) ∧
      s1.autotune = s.autotune ∧ s1.airspeed_min = s.airspeed_min := by
  refine ⟨_, _, rfl, ?_⟩
  cases disable_integrator <;> dsimp only [record] <;> split_ifs <;> simp_all

theorem angle_error_entry (env : Env) (v : Vehicle) (s : AP_RollController)
    (angle_err target_angle : ℤ) (scaler : ℚ) (disable_integrator ground_mode : Bool) :
    ∃ (s1 : AP_RollController) (d : ℚ),
      get_servo_out_using_angle_error env v s angle_err target_angle scaler
          disable_integrator ground_mode
        = _get_rate_out env v s1 d scaler disable_integrator ground_mode
            (_get_gso_ahrs_data v).aspeed (_get_gso_ahrs_data v).eas2tas
            (_get_gso_ahrs_data v).rate_x ∧
      s1.angle_err_deg = (angle_err : ℚ) * (1 / 100) ∧
      s1.calls = s.calls ++ [Call.angle_set_dt v.loop_period_s]
        ++ (if 2 < (angle_err : ℚ) * (1 / 100)
            then [Call.angle_relax_integrator 0 (1 / 10)] else [])
        ++ [Call.angle_update_error ((angle_err : ℚ) * (1 / 100)) false]
        ++ (if disable_integrator = true then [Call.angle_reset_I] else []) ∧
      s1.angle_pid
        = (fun p : AC_PID => if disable_integrator = true then p.reset_I else p)
            (env.update_error
              (if 2 < (angle_err : ℚ) * (1 / 100)
                then env.relax_integrator (s.angle_pid.set_dt v.loop_period_s) 0 (1 / 10)
                else s.angle_pid.set_dt v.loop_period_s)
              ((angle_err : ℚ) * (1 / 100)) false) ∧
      s1.autotune = s.autotune ∧ s1.airspeed_min = s.airspeed_min := by
  refine ⟨_, _, rfl, ?_⟩
  cases disable_integrator <;> dsimp only [record] <;> split_ifs <;> simp_all

theorem autotune_running_congr (s s1 : AP_RollController) (h : s1.autotune = s.autotune) :
    s1.autotune_running = s.autotune_running := by
  unfold autotune_running
  rw [h]

/-- C11: in every call of `_get_rate_out`, `autotune->update` is called exactly once,
with the rescaled diagnostics (P, I and D of the rate PID snapshot times
`degrees(1)`, the demanded rate as target), the scaler and the stored angle
error, if an autotune object exists, is running and aspeed > airspeed_min;
otherwise it is not called, so never when aspeed <= airspeed_min. In the two
angle-loop entry points the angle error passed on is the one computed in the
same tick. -/
theorem autotune_update_when_running (env : Env) (v : Vehicle) (s : AP_RollController)
    (desired_rate scaler : ℚ) (target_angle angle_err : ℤ)
    (disable_integrator ground_mode : Bool) (aspeed eas2tas rate_x : ℚ) :
    (s.autotune_running = true
      ↔ ∃ a : AP_AutoTune, s.autotune = some a ∧ a.running = true) ∧
    List.filterMap Call.autotune_args
        (_get_rate_out env v s desired_rate scaler disable_integrator ground_mode
          aspeed eas2tas rate_x).2.calls
      = List.filterMap Call.autotune_args s.calls
          ++ (if s.autotune_running = true ∧ (s.airspeed_min : ℚ) < aspeed then
                [((_get_rate_out env v s desired_rate scaler disable_integrator ground_mode
                    aspeed eas2tas rate_x).2._pid_info, scaler, s.angle_err_deg)]
              else []) ∧
    ((_get_rate_out env v s desired_rate scaler disable_integrator ground_mode
          aspeed eas2tas rate_x).2._pid_info.target = desired_rate ∧
      (_get_rate_out env v s desired_rate scaler disable_integrator ground_mode
          aspeed eas2tas rate_x).2._pid_info.P
        = (_get_rate_out env v s desired_rate scaler disable_integrator ground_mode
            aspeed eas2tas rate_x).2.rate_pid.get_pid_info.P * env.degrees 1 ∧
      (_get_rate_out env v s desired_rate scaler disable_integrator ground_mode
          aspeed eas2tas rate_x).2._pid_info.I
        = (_get_rate_out env v s desired_rate scaler disable_integrator ground_mode
            aspeed eas2tas rate_x).2.rate_pid.get_pid_info.I * env.degrees 1 ∧
      (_get_rate_out env v s desired_rate scaler disable_integrator ground_mode
          aspeed eas2tas rate_x).2._pid_info.D
        = (_get_rate_out env v s desired_rate scaler disable_integrator ground_mode
            aspeed eas2tas rate_x).2.rate_pid.get_pid_info.D * env.degrees 1) ∧
    (aspeed ≤ (s.airspeed_min : ℚ) →
      List.filterMap Call.autotune_args
          (_get_rate_out env v s desired_rate scaler disable_integrator ground_mode
            aspeed eas2tas rate_x).2.calls
        = List.filterMap Call.autotune_args s.calls) ∧
    List.filterMap Call.autotune_args
        (get_servo_out_using_angle_target env v s target_angle scaler
          disable_integrator ground_mode).2.calls
      = List.filterMap Call.autotune_args s.calls
          ++ (if s.autotune_running = true
                  ∧ (s.airspeed_min : ℚ) < (_get_gso_ahrs_data v).aspeed then
                [((get_servo_out_using_angle_target env v s target_angle scaler
                    disable_integrator ground_mode).2._pid_info, scaler,
                  (target_angle : ℚ) * (1 / 100)
                    - ((_get_gso_ahrs_data v).roll_sensor : ℚ) * (1 / 100))]
              else []) ∧
    List.filterMap Call.autotune_args
        (get_servo_out_using_angle_error env v s angle_err target_angle scaler
          disable_integrator ground_mode).2.calls
      = List.filterMap Call.autotune_args s.calls
          ++ (if s.autotune_running = true
                  ∧ (s.airspeed_min : ℚ) < (_get_gso_ahrs_data v).aspeed then
                [((get_servo_out_using_angle_error env v s angle_err target_angle scaler
                    disable_integrator ground_mode).2._pid_info, scaler,
                  (angle_err : ℚ) * (1 / 100))]
              else []) := by
  refine ⟨autotune_running_iff s, _get_rate_out_autotune_args _ _ _ _ _ _ _ _ _ _, ?_, ?_,
    ?_, ?_⟩
  · rw [_get_rate_out_pid_info]
    exact ⟨rfl, rfl, rfl, rfl⟩
  · intro hunder
    rw [_get_rate_out_autotune_args, if_neg (fun h => absurd h.2 (not_lt.mpr hunder)),
      List.append_nil]
  · obtain ⟨s1, d, h, herr, hcalls, -, hauto, hmin⟩ :=
      angle_target_entry env v s target_angle scaler disable_integrator ground_mode
    have hargs : List.filterMap Call.autotune_args s1.calls
        = List.filterMap Call.autotune_args s.calls := by
      rw [hcalls]
      simp only [List.filterMap_append]
      split_ifs <;> simp [Call.autotune_args]
    rw [h, _get_rate_out_autotune_args, hargs, autotune_running_congr s s1 hauto, hmin, herr]
  · obtain ⟨s1, d, h, herr, hcalls, -, hauto, hmin⟩ :=
      angle_error_entry env v s angle_err target_angle scaler disable_integrator ground_mode
    have hargs : List.filterMap Call.autotune_args s1.calls
        = List.filterMap Call.autotune_args s.calls := by
      rw [hcalls]
      simp only [List.filterMap_append]
      split_ifs <;> simp [Call.autotune_args]
    rw [h, _get_rate_out_autotune_args, hargs, autotune_running_congr s s1 hauto, hmin, herr]

/-! ## The parameter index of the tuning session -/

theorem next_parameter_active_set (t : AP_Tuning) :
    t.next_parameter.active_set = t.active_set := by
  unfold AP_Tuning.next_parameter
  cases h : t.active_set with
  | none => simp [h]
  | some ts => simp [AP_Tuning.active_set] at h ⊢; exact h

theorem next_parameter_index (t : AP_Tuning) (ts : AP_Tuning.tuning_set)
    (hset : t.active_set = some ts) (hbyte : ts.num_parms < 256)
    (hidx : t.current_parm_index < ts.num_parms) :
    t.next_parameter.current_parm_index
      = (if t.current_parm_index + 1 < ts.num_parms then t.current_parm_index + 1 else 0) ∧
    t.next_parameter.current_parm_index < ts.num_parms := by
  have hmod : (t.current_parm_index + 1) % 256 = t.current_parm_index + 1 :=
    Nat.mod_eq_of_lt (by omega)
  simp only [AP_Tuning.next_parameter, hset, hmod]
  by_cases h : t.current_parm_index + 1 < ts.num_parms
  · simp [h, not_le.mpr h]
  · simp [h, not_lt.mp h]
    omega

theorem next_parameter_iterate (t : AP_Tuning) (ts : AP_Tuning.tuning_set)
    (hset : t.active_set = some ts) (hbyte : ts.num_parms < 256)
    (hidx : t.current_parm_index < ts.num_parms) (n : ℕ) :
    (AP_Tuning.next_parameter^[n] t).active_set = some ts ∧
    (AP_Tuning.next_parameter^[n] t).current_parm_index < ts.num_parms := by
  induction n with
  | zero => exact ⟨hset, hidx⟩
  | succ n ih =>
    rw [Function.iterate_succ_apply']
    exact ⟨(next_parameter_active_set _).trans ih.1,
      (next_parameter_index _ ts ih.1 hbyte ih.2).2⟩

/-- C12: with an active tuning set and `current_parm_index` inside it, after any
number of selector-switch advances the index is still inside
[0, num_parms) of that set; each advance adds one, or wraps to 0 where adding
one would reach num_parms; with a 3-parameter set, two advances from index 0
give index 2 and a third gives index 0. -/
theorem current_parm_index_stays_in_set (t : AP_Tuning) (ts : AP_Tuning.tuning_set)
    (hset : t.active_set = some ts) (hbyte : ts.num_parms < 256)
    (hidx : t.current_parm_index < ts.num_parms) :
    (∀ n : ℕ, (AP_Tuning.next_parameter^[n] t).current_parm_index < ts.num_parms) ∧
    (∀ n : ℕ, (AP_Tuning.next_parameter^[n + 1] t).current_parm_index
      = (if (AP_Tuning.next_parameter^[n] t).current_parm_index + 1 < ts.num_parms
          then (AP_Tuning.next_parameter^[n] t).current_parm_index + 1 else 0)) ∧
    (ts.num_parms = 3 → t.current_parm_index = 0 →
      (AP_Tuning.next_parameter^[2] t).current_parm_index = 2 ∧
      (AP_Tuning.next_parameter^[3] t).current_parm_index = 0) := by
  have hstep : ∀ n : ℕ, (AP_Tuning.next_parameter^[n + 1] t).current_parm_index
      = (if (AP_Tuning.next_parameter^[n] t).current_parm_index + 1 < ts.num_parms
          then (AP_Tuning.next_parameter^[n] t).current_parm_index + 1 else 0) := by
    intro n
    obtain ⟨h1, h2⟩ := next_parameter_iterate t ts hset hbyte hidx n
    rw [Function.iterate_succ_apply']
    exact (next_parameter_index _ ts h1 hbyte h2).1
  refine ⟨fun n => (next_parameter_iterate t ts hset hbyte hidx n).2, hstep, ?_⟩
  intro h3 h0
  have e1 : (AP_Tuning.next_parameter^[1] t).current_parm_index = 1 := by
    rw [hstep 0]
    simp [h0, h3]
  have e2 : (AP_Tuning.next_parameter^[2] t).current_parm_index = 2 := by
    rw [hstep 1, e1]
    simp [h3]
  have e3 : (AP_Tuning.next_parameter^[3] t).current_parm_index = 0 := by
    rw [hstep 2, e2]
    simp [h3]
  exact ⟨e2, e3⟩

/-- Witness of C12: the bench session on a three-parameter set, at index 0. -/
theorem current_parm_index_stays_in_set_witness :
    AP_Tuning.bench_session.active_set
        = some { set := 2, num_parms := 3, parms := [4, 1, 25] } ∧
    (3 : ℕ) < 256 ∧ AP_Tuning.bench_session.current_parm_index < 3 ∧
    (∀ n : ℕ, (AP_Tuning.next_parameter^[n] AP_Tuning.bench_session).current_parm_index < 3) ∧
    (AP_Tuning.next_parameter^[2] AP_Tuning.bench_session).current_parm_index = 2 ∧
    (AP_Tuning.next_parameter^[3] AP_Tuning.bench_session).current_parm_index = 0 :=
  have hset : AP_Tuning.bench_session.active_set
      = some { set := 2, num_parms := 3, parms := [4, 1, 25] } := by decide
  have hidx : AP_Tuning.bench_session.current_parm_index < 3 := by decide
  ⟨hset, by decide, hidx,
    (current_parm_index_stays_in_set AP_Tuning.bench_session
      { set := 2, num_parms := 3, parms := [4, 1, 25] } hset (by decide) hidx).1,
    ((current_parm_index_stays_in_set AP_Tuning.bench_session
      { set := 2, num_parms := 3, parms := [4, 1, 25] } hset (by decide) hidx).2.2 rfl rfl).1,
    ((current_parm_index_stays_in_set AP_Tuning.bench_session
      { set := 2, num_parms := 3, parms := [4, 1, 25] } hset (by decide) hidx).2.2 rfl rfl).2⟩

/-! ## Relaxing the angle integrator -/

theorem _get_rate_out_angle_tail (env : Env) (v : Vehicle) (s1 : AP_RollController)
    (desired_rate scaler : ℚ) (disable_integrator ground_mode : Bool)
    (aspeed eas2tas rate_x : ℚ) :
    ∃ tail : List Call,
      (_get_rate_out env v s1 desired_rate scaler disable_integrator ground_mode
        aspeed eas2tas rate_x).2.calls = s1.calls ++ tail ∧
      List.filterMap Call.angle_relaxed tail = [] := by
  refine ⟨[Call.rate_set_dt v.loop_period_s,
        Call.rate_update_all (env.radians desired_rate * scaler * scaler)
          (rate_x * scaler * scaler)
          (decide (45 ≤ |s1._last_out| ∨ aspeed ≤ (s1.airspeed_min : ℚ)))]
      ++ (if aspeed ≤ (s1.airspeed_min : ℚ) then [Call.rate_set_integrator s1.rate_pid.get_i]
          else [])
      ++ (if disable_integrator = true then [Call.rate_reset_I] else [])
      ++ (if s1.autotune_running = true ∧ (s1.airspeed_min : ℚ) < aspeed then
            [Call.autotune_update
              (_get_rate_out env v s1 desired_rate scaler disable_integrator ground_mode
                aspeed eas2tas rate_x).2._pid_info scaler s1.angle_err_deg]
          else []), ?_, ?_⟩
  · rw [_get_rate_out_calls]
    simp only [List.append_assoc]
  · simp only [List.filterMap_append]
    split_ifs <;> simp [Call.angle_relaxed]

theorem angle_loop_tick_of_entry (env : Env) (v : Vehicle) (s s1 : AP_RollController)
    (e d scaler : ℚ) (update : Call) (run_update : AC_PID → AC_PID)
    (disable_integrator ground_mode : Bool) (aspeed eas2tas rate_x : ℚ)
    (hupdate : Call.angle_relaxed update = none)
    (herr : s1.angle_err_deg = e)
    (hcalls : s1.calls = s.calls ++ [Call.angle_set_dt v.loop_period_s]
        ++ (if 2 < e then [Call.angle_relax_integrator 0 (1 / 10)] else [])
        ++ [update] ++ (if disable_integrator = true then [Call.angle_reset_I] else []))
    (hpid : s1.angle_pid
      = (fun p : AC_PID => if disable_integrator = true then p.reset_I else p)
          (run_update
            (if 2 < e then env.relax_integrator (s.angle_pid.set_dt v.loop_period_s) 0 (1 / 10)
              else s.angle_pid.set_dt v.loop_period_s))) :
    AngleLoopTick env v s e update run_update disable_integrator
      (_get_rate_out env v s1 d scaler disable_integrator ground_mode aspeed eas2tas rate_x) := by
  obtain ⟨tail, htail, hnone⟩ := _get_rate_out_angle_tail env v s1 d scaler disable_integrator
    ground_mode aspeed eas2tas rate_x
  refine ⟨by rw [_get_rate_out_angle_err_deg, herr], ?_, ?_, ?_⟩
  · have hu : List.filterMap Call.angle_relaxed [update] = [] := by
      simp [List.filterMap_cons, hupdate]
    rw [htail, hcalls]
    simp only [List.filterMap_append, hnone, hu, List.append_nil]
    split_ifs <;> simp [Call.angle_relaxed]
  · refine ⟨(if disable_integrator = true then [Call.angle_reset_I] else []) ++ tail, ?_, ?_⟩
    · rw [htail, hcalls]
      simp only [List.append_assoc]
    · simp only [List.filterMap_append, hnone, List.append_nil]
      split_ifs <;> simp [Call.angle_relaxed]
  · rw [(_get_rate_out_frame env v s1 d scaler disable_integrator ground_mode
      aspeed eas2tas rate_x).1, hpid]

/-- C13: in both angle-loop entry points the angle error in degrees is computed
first (target_angle*0.01 - roll_sensor*0.01, respectively angle_err*0.01) and
stored; `angle_pid.relax_integrator(0, 0.1)` is called, before the PID update,
if and only if that error is strictly greater than 2; for every error <= 2,
negative errors included, no relaxation is applied. -/
theorem angle_integrator_relaxed_iff (env : Env) (v : Vehicle) (s : AP_RollController)
    (target_angle angle_err : ℤ) (scaler : ℚ) (disable_integrator ground_mode : Bool) :
    AngleLoopTick env v s
      ((target_angle : ℚ) * (1 / 100) - ((_get_gso_ahrs_data v).roll_sensor : ℚ) * (1 / 100))
      (Call.angle_update_all ((target_angle : ℚ) * (1 / 100))
        (((_get_gso_ahrs_data v).roll_sensor : ℚ) * (1 / 100)) false)
      (fun p : AC_PID => env.update_all p ((target_angle : ℚ) * (1 / 100))
        (((_get_gso_ahrs_data v).roll_sensor : ℚ) * (1 / 100)) false)
      disable_integrator
      (get_servo_out_using_angle_target env v s target_angle scaler
        disable_integrator ground_mode) ∧
    AngleLoopTick env v s ((angle_err : ℚ) * (1 / 100))
      (Call.angle_update_error ((angle_err : ℚ) * (1 / 100)) false)
      (fun p : AC_PID => env.update_error p ((angle_err : ℚ) * (1 / 100)) false)
      disable_integrator
      (get_servo_out_using_angle_error env v s angle_err target_angle scaler
        disable_integrator ground_mode) ∧
    ((target_angle : ℚ) * (1 / 100) - ((_get_gso_ahrs_data v).roll_sensor : ℚ) * (1 / 100) ≤ 2 →
      List.filterMap Call.angle_relaxed
          (get_servo_out_using_angle_target env v s target_angle scaler
            disable_integrator ground_mode).2.calls
        = List.filterMap Call.angle_relaxed s.calls) ∧
    ((angle_err : ℚ) * (1 / 100) ≤ 2 →
      List.filterMap Call.angle_relaxed
          (get_servo_out_using_angle_error env v s angle_err target_angle scaler
            disable_integrator ground_mode).2.calls
        = List.filterMap Call.angle_relaxed s.calls) := by
  have key : ∀ (e : ℚ) (update : Call) (run_update : AC_PID → AC_PID)
      (r : ℚ × AP_RollController),
      AngleLoopTick env v s e update run_update disable_integrator r → e ≤ 2 →
      List.filterMap Call.angle_relaxed r.2.calls
        = List.filterMap Call.angle_relaxed s.calls := by
    intro e update run_update r hr he
    rw [hr.2.1, if_neg (not_lt.mpr he), List.append_nil]
  suffices h : AngleLoopTick env v s
      ((target_angle : ℚ) * (1 / 100) - ((_get_gso_ahrs_data v).roll_sensor : ℚ) * (1 / 100))
      (Call.angle_update_all ((target_angle : ℚ) * (1 / 100))
        (((_get_gso_ahrs_data v).roll_sensor : ℚ) * (1 / 100)) false)
      (fun p : AC_PID => env.update_all p ((target_angle : ℚ) * (1 / 100))
        (((_get_gso_ahrs_data v).roll_sensor : ℚ) * (1 / 100)) false)
      disable_integrator
      (get_servo_out_using_angle_target env v s target_angle scaler
        disable_integrator ground_mode) ∧
    AngleLoopTick env v s ((angle_err : ℚ) * (1 / 100))
      (Call.angle_update_error ((angle_err : ℚ) * (1 / 100)) false)
      (fun p : AC_PID => env.update_error p ((angle_err : ℚ) * (1 / 100)) false)
      disable_integrator
      (get_servo_out_using_angle_error env v s angle_err target_angle scaler
        disable_integrator ground_mode) from
    ⟨h.1, h.2, key _ _ _ _ h.1, key _ _ _ _ h.2⟩
  refine ⟨?_, ?_⟩
  · obtain ⟨s1, d, h, herr, hcalls, hpid, -, -⟩ :=
      angle_target_entry env v s target_angle scaler disable_integrator ground_mode
    rw [h]
    exact angle_loop_tick_of_entry env v s s1 _ d scaler _ _ disable_integrator ground_mode
      _ _ _ rfl herr hcalls hpid
  · obtain ⟨s1, d, h, herr, hcalls, hpid, -, -⟩ :=
      angle_error_entry env v s angle_err target_angle scaler disable_integrator ground_mode
    rw [h]
    exact angle_loop_tick_of_entry env v s s1 _ d scaler _ _ disable_integrator ground_mode
      _ _ _ rfl herr hcalls hpid

/-- Witness of C13: on the bench controller an angle error of -300 centidegrees
(-3 degrees, below -2) is not greater than 2 and no relaxation is recorded. -/
theorem angle_integrator_relaxed_iff_witness :
    ((-300 : ℤ) : ℚ) * (1 / 100) ≤ 2 ∧
    List.filterMap Call.angle_relaxed
        (get_servo_out_using_angle_error bench_env bench_vehicle bench_controller (-300) 0 1
          false false).2.calls
      = List.filterMap Call.angle_relaxed bench_controller.calls :=
  have he : ((-300 : ℤ) : ℚ) * (1 / 100) ≤ 2 := by norm_num
  ⟨he, (angle_integrator_relaxed_iff bench_env bench_vehicle bench_controller 0 (-300) 1
    false false).2.2.2 he⟩

/-- Witness of C11: the bench controller with an autotune session running. At
3 m/s (minimum airspeed 5) no update is recorded; at 20 m/s exactly one is. -/
theorem autotune_update_when_running_witness :
    (3 : ℚ) ≤ (bench_controller_tuning.airspeed_min : ℚ) ∧
    List.filterMap Call.autotune_args
        (_get_rate_out bench_env bench_vehicle bench_controller_tuning 10 1 false false
          3 1 0).2.calls
      = List.filterMap Call.autotune_args bench_controller_tuning.calls ∧
    (List.filterMap Call.autotune_args
        (_get_rate_out bench_env bench_vehicle bench_controller_tuning 10 1 false false
          20 1 0).2.calls).length
      = (List.filterMap Call.autotune_args bench_controller_tuning.calls).length + 1 :=
  have hmin : bench_controller_tuning.airspeed_min = 5 := by
    simp [bench_controller_tuning, autotune_start, record, bench_controller]
  have hrun : bench_controller_tuning.autotune_running = true := by
    simp [bench_controller_tuning, autotune_start, record, bench_controller, autotune_running,
      AP_AutoTune.new, AP_AutoTune.start]
  have hlow : (3 : ℚ) ≤ (bench_controller_tuning.airspeed_min : ℚ) := by
    rw [hmin]; norm_num
  have hhigh : (bench_controller_tuning.airspeed_min : ℚ) < 20 := by
    rw [hmin]; norm_num
  ⟨hlow,
    (autotune_update_when_running bench_env bench_vehicle bench_controller_tuning 10 1 0 0
      false false 3 1 0).2.2.2.1 hlow,
    by
      rw [(autotune_update_when_running bench_env bench_vehicle bench_controller_tuning 10 1 0 0
        false false 20 1 0).2.1, if_pos ⟨hrun, hhigh⟩]
      simp⟩

/-! ## The angle-loop derivative gain across an autotune session -/

/-- C14, counterexample: a controller whose autotune object already exists (a
first session was started and restored) and whose angle-loop kD was then set to
0.01: `autotune_start` followed by `autotune_restore` leaves kD at 0.01, so the
value after restore does not differ from the non-zero value before start. -/
theorem autotune_kD_counterexample :
    bench_controller_second_session.angle_pid.kD = 1 / 100 ∧
    bench_controller_second_session.angle_pid.kD ≠ 0 ∧
    ¬ ((autotune_restore
          (autotune_start bench_env bench_controller_second_session true)).angle_pid.kD
        ≠ bench_controller_second_session.angle_pid.kD) := by
  have h1 : bench_controller_second_session.angle_pid.kD = 1 / 100 := by
    simp [bench_controller_second_session, AC_PID.kD, AC_PID.set_kD]
  have h2 : (autotune_restore
      (autotune_start bench_env bench_controller_second_session true)).angle_pid.kD
      = 1 / 100 := by
    simp [bench_controller_second_session, bench_controller_tuning, autotune_restore,
      autotune_start, record, bench_controller, AP_AutoTune.new, AP_AutoTune.start,
      AP_AutoTune.stop, AC_PID.kD, AC_PID.set_kD, AC_PID.set_kI, AC_PID.set_filt_T_hz,
      AC_PID.kI, AC_PID.filt_T_hz]
  refine ⟨h1, by rw [h1]; norm_num, fun h => h ?_⟩
  rw [h1, h2]

theorem autotune_restore_kD (t : AP_RollController) :
    (autotune_restore t).angle_pid.kD = t.angle_pid.kD := by
  unfold autotune_restore
  cases h : t.autotune with
  | none => simp
  | some a => simp [record, AC_PID.kD, AC_PID.set_kI, AC_PID.set_filt_T_hz]

theorem autotune_start_kD (env : Env) (s : AP_RollController) (alloc_ok : Bool)
    (hnull : s.autotune = none) :
    (autotune_start env s alloc_ok).angle_pid.kD = 0 ∧
    List.filterMap Call.angle_kD_saved (autotune_start env s alloc_ok).calls
      = List.filterMap Call.angle_kD_saved s.calls ++ [0] := by
  cases alloc_ok <;> cases hf : s.failed_autotune_alloc <;>
    simp [autotune_start, hnull, hf, record, AP_AutoTune.new, AP_AutoTune.start, AC_PID.kD,
      AC_PID.set_kI, AC_PID.set_kD, AC_PID.set_filt_T_hz, Call.angle_kD_saved]

/-- C14, amended: when `autotune_start` is called while no autotune object exists
(the first start), it sets the angle-loop kD to 0 and saves it, whether or not
the allocation succeeds; `autotune_restore` never writes kD, so it leaves kD at
0, and for every non-zero pre-start kD the value after restore differs from
the value before start. -/
theorem autotune_kD_not_restored (env : Env) (s : AP_RollController) (alloc_ok : Bool)
    (hnull : s.autotune = none) :
    (autotune_start env s alloc_ok).angle_pid.kD = 0 ∧
    List.filterMap Call.angle_kD_saved (autotune_start env s alloc_ok).calls
      = List.filterMap Call.angle_kD_saved s.calls ++ [0] ∧
    (∀ t : AP_RollController, (autotune_restore t).angle_pid.kD = t.angle_pid.kD) ∧
    (autotune_restore (autotune_start env s alloc_ok)).angle_pid.kD = 0 ∧
    (s.angle_pid.kD ≠ 0 →
      (autotune_restore (autotune_start env s alloc_ok)).angle_pid.kD ≠ s.angle_pid.kD) := by
  obtain ⟨h0, hsaved⟩ := autotune_start_kD env s alloc_ok hnull
  have hr : (autotune_restore (autotune_start env s alloc_ok)).angle_pid.kD = 0 := by
    rw [autotune_restore_kD, h0]
  exact ⟨h0, hsaved, autotune_restore_kD, hr, fun hne h => hne (by rw [← h, hr])⟩

/-- Witness of C14 amended: the bench controller (no autotune object, angle-loop
kD = 0.01) started and restored. -/
theorem autotune_kD_not_restored_witness :
    bench_controller.autotune = none ∧ bench_controller.angle_pid.kD ≠ 0 ∧
    (autotune_restore (autotune_start bench_env bench_controller true)).angle_pid.kD = 0 ∧
    (autotune_restore (autotune_start bench_env bench_controller true)).angle_pid.kD
      ≠ bench_controller.angle_pid.kD :=
  have hne : bench_controller.angle_pid.kD ≠ 0 := by
    norm_num [bench_controller, AC_PID.kD, AC_PID.zero]
  ⟨rfl, hne,
    (autotune_kD_not_restored bench_env bench_controller true rfl).2.2.2.1,
    (autotune_kD_not_restored bench_env bench_controller true rfl).2.2.2.2 hne⟩

/-! ## Parameter IDs, `set_base` and the `have_set` mask -/

theorem tuning_func_value_lt_set_base (f : AP_Tuning_Plane.tuning_func) :
    f.value < AP_Tuning.set_base := by
  cases f <;> decide

theorem tuning_func_values_card :
    ((AP_Tuning_Plane.tuning_func.all.map AP_Tuning_Plane.tuning_func.value).toFinset).card
      = 71 := by
  decide

/-- C15: every parameter ID of `tuning_func` is smaller than `set_base` (100), the
largest being 93; but `TUNING_FBWA_PITCH_UP` is 64 and, with the 29 enumerators
after it, is not smaller than 64, the number of bits of `have_set`; the
enumeration holds 71 distinct IDs, so whatever bit of a 64-bit mask an ID
selects, two different IDs select the same bit. -/
theorem tuning_func_ids_exceed_have_set :
    (∀ f : AP_Tuning_Plane.tuning_func, f.value < AP_Tuning.set_base) ∧
    AP_Tuning_Plane.tuning_func.TUNING_THR_AUTO_SRATE.value = 93 ∧
    AP_Tuning_Plane.tuning_func.TUNING_FBWA_PITCH_UP.value = 64 ∧
    ¬ (AP_Tuning_Plane.tuning_func.TUNING_FBWA_PITCH_UP.value
        < AP_Tuning_Plane.have_set_bits) ∧
    (AP_Tuning_Plane.tuning_func.all.filter
        (fun f => decide (AP_Tuning_Plane.have_set_bits ≤ f.value))).length = 30 ∧
    (∀ bit : ℕ → Fin AP_Tuning_Plane.have_set_bits,
      ∃ f g : AP_Tuning_Plane.tuning_func, f.value ≠ g.value ∧ bit f.value = bit g.value) := by
  refine ⟨tuning_func_value_lt_set_base, rfl, rfl, by decide, by decide, fun bit => ?_⟩
  have hcard : (Finset.univ : Finset (Fin AP_Tuning_Plane.have_set_bits)).card
      < ((AP_Tuning_Plane.tuning_func.all.map
          AP_Tuning_Plane.tuning_func.value).toFinset).card := by
    rw [tuning_func_values_card, Finset.card_univ, Fintype.card_fin]
    decide
  obtain ⟨x, hx, y, hy, hne, heq⟩ :=
    Finset.exists_ne_map_eq_of_card_lt_of_maps_to hcard (fun a _ => Finset.mem_univ (bit a))
  rw [List.mem_toFinset, List.mem_map] at hx hy
  obtain ⟨f, -, rfl⟩ := hx
  obtain ⟨g, -, rfl⟩ := hy
  exact ⟨f, g, hne, heq⟩
